import Mathlib

/-!
Verification of the ticketing backend (`api/routes/tickets.js` and
`models/Ticket.js`) against its natural-language specification.

The JavaScript source is shallowly embedded: strings are `String`/`List Char`,
JSON request bodies are records of `Option` fields (`none` = key absent),
Mongo documents are records following the `ticketSchema` declaration, and the
environment (current time, `new Date(...)` parsing) is passed in as explicit
parameters.  All definitions are executable.
-/

/-! ## Decimal rendering and parsing of numbers

`natChars n` models the JavaScript number-to-string conversion used by
template literals such as `${count + 1}` and `${i._id.year}`; `parseNatChars`
models `Number(s)` on a plain digit string (as produced by `split` on the
keys built from numeric aggregation ids).  `natCharsAux` is fueled so that it
is structurally recursive (the fuel `n` always suffices since `n / 10 < n`).
-/

def digitChar (d : Nat) : Char := Char.ofNat (48 + d)

def natCharsAux : Nat → Nat → List Char → List Char
  | 0, _, acc => acc
  | fuel + 1, n, acc =>
      if n = 0 then acc else natCharsAux fuel (n / 10) (digitChar (n % 10) :: acc)

def natChars (n : Nat) : List Char :=
  if n = 0 then ['0'] else natCharsAux n n []

def natStr (n : Nat) : String := ⟨natChars n⟩

def parseNatAcc : List Char → Nat → Nat
  | [], acc => acc
  | c :: rest, acc => parseNatAcc rest (acc * 10 + (c.toNat - 48))

def parseNatChars (cs : List Char) : Nat := parseNatAcc cs 0

/-- JS `String.prototype.padStart(n, '0')`. -/
def padStartZeros (n : Nat) (cs : List Char) : List Char :=
  List.replicate (n - cs.length) '0' ++ cs

/-- JS `String.prototype.split(sep)` for a single-character separator. -/
def jsSplit (sep : Char) : List Char → List (List Char)
  | [] => [[]]
  | c :: rest =>
      if c = sep then [] :: jsSplit sep rest
      else
        match jsSplit sep rest with
        | [] => [[c]]
        | h :: t => (c :: h) :: t

/-- JS `Array.prototype.join(sep)` on character lists. -/
def joinWith (sep : Char) : List (List Char) → List Char
  | [] => []
  | [x] => x
  | x :: y :: t => x ++ sep :: joinWith sep (y :: t)

/-- JS `Array.prototype.join(';')`. -/
def joinSemis (xs : List String) : String :=
  ⟨joinWith ';' (xs.map (·.data))⟩

/-- JS `String.prototype.split(';')` returning strings. -/
def splitSemis (s : String) : List String :=
  (jsSplit ';' s.data).map (⟨·⟩)

theorem digitChar_toNat : ∀ d < 10, (digitChar d).toNat = 48 + d := by decide

theorem digitChar_isDigit : ∀ d < 10, (digitChar d).isDigit = true := by decide

theorem natCharsAux_acc :
    ∀ fuel n acc, natCharsAux fuel n acc = natCharsAux fuel n [] ++ acc := by
  intro fuel
  induction fuel with
  | zero => intro n acc; simp [natCharsAux]
  | succ fuel ih =>
      intro n acc
      by_cases h : n = 0
      · simp [natCharsAux, h]
      · simp only [natCharsAux, h, if_false]
        rw [ih (n / 10) (digitChar (n % 10) :: acc), ih (n / 10) [digitChar (n % 10)]]
        simp

theorem parseNatAcc_append (acc : Nat) (l1 l2 : List Char) :
    parseNatAcc (l1 ++ l2) acc = parseNatAcc l2 (parseNatAcc l1 acc) := by
  induction l1 generalizing acc with
  | nil => simp [parseNatAcc]
  | cons c rest ih => simp [parseNatAcc, ih]

theorem parse_natCharsAux :
    ∀ fuel n, 1 ≤ n → n ≤ fuel → parseNatAcc (natCharsAux fuel n []) 0 = n := by
  intro fuel
  induction fuel with
  | zero => intro n h1 h2; omega
  | succ fuel ih =>
      intro n h1 h2
      have hn : ¬ n = 0 := by omega
      simp only [natCharsAux, hn, if_false]
      rw [natCharsAux_acc fuel (n / 10) [digitChar (n % 10)]]
      rw [parseNatAcc_append]
      by_cases h10 : n / 10 = 0
      · have hlt : n % 10 = n := by omega
        simp [h10, natCharsAux, parseNatAcc]
        rw [digitChar_toNat (n % 10) (by omega)]
        cases fuel with
        | zero => simp [natCharsAux, parseNatAcc]; omega
        | succ f => simp [natCharsAux, parseNatAcc]; omega
      · have hle : n / 10 ≤ fuel := by
          have := Nat.div_lt_self (by omega : 0 < n) (by omega : 1 < 10)
          omega
        rw [ih (n / 10) (by omega) hle]
        simp [parseNatAcc]
        rw [digitChar_toNat (n % 10) (by omega)]
        omega

theorem parse_natChars (n : Nat) : parseNatChars (natChars n) = n := by
  by_cases h : n = 0
  · simp [natChars, h, parseNatChars, parseNatAcc]
  · simp only [natChars, h, if_false, parseNatChars]
    exact parse_natCharsAux n n (by omega) le_rfl

theorem mem_natCharsAux :
    ∀ fuel n acc c, c ∈ natCharsAux fuel n acc → c ∈ acc ∨ ∃ d < 10, c = digitChar d := by
  intro fuel
  induction fuel with
  | zero => intro n acc c h; simp [natCharsAux] at h; exact Or.inl h
  | succ fuel ih =>
      intro n acc c h
      by_cases hn : n = 0
      · simp [natCharsAux, hn] at h; exact Or.inl h
      · simp only [natCharsAux, hn, if_false] at h
        rcases ih (n / 10) (digitChar (n % 10) :: acc) c h with hmem | hdig
        · rcases List.mem_cons.mp hmem with heq | hacc
          · exact Or.inr ⟨n % 10, by omega, heq⟩
          · exact Or.inl hacc
        · exact Or.inr hdig

theorem mem_natChars_isDigit (n : Nat) (c : Char) (h : c ∈ natChars n) :
    c.isDigit = true := by
  by_cases hn : n = 0
  · simp [natChars, hn] at h; subst h; decide
  · simp only [natChars, hn, if_false] at h
    rcases mem_natCharsAux n n [] c h with h' | ⟨d, hd, rfl⟩
    · simp at h'
    · exact digitChar_isDigit d hd

theorem natChars_ne_nil (n : Nat) : natChars n ≠ [] := by
  by_cases hn : n = 0
  · simp [natChars, hn]
  · simp only [natChars, hn, if_false]
    cases n with
    | zero => omega
    | succ m =>
        simp only [natCharsAux, Nat.succ_ne_zero, if_false]
        rw [natCharsAux_acc]
        simp

theorem notMem_natChars_of_not_digit (n : Nat) (c : Char) (h : c.isDigit = false) :
    c ∉ natChars n := by
  intro hmem
  have := mem_natChars_isDigit n c hmem
  rw [h] at this
  exact Bool.false_ne_true this

theorem parseNatAcc_zeros (k : Nat) (cs : List Char) :
    parseNatAcc (List.replicate k '0' ++ cs) 0 = parseNatAcc cs 0 := by
  induction k with
  | zero => simp
  | succ k ih => simpa [List.replicate, parseNatAcc] using ih

theorem parse_padStartZeros (k : Nat) (cs : List Char) :
    parseNatChars (padStartZeros k cs) = parseNatChars cs := by
  simp [parseNatChars, padStartZeros, parseNatAcc_zeros]

theorem natCharsAux_length_le :
    ∀ k fuel n, n ≤ fuel → n < 10 ^ k → (natCharsAux fuel n []).length ≤ k := by
  intro k
  induction k with
  | zero =>
      intro fuel n h1 h2
      have : n = 0 := by omega
      subst this
      cases fuel <;> simp [natCharsAux]
  | succ k ih =>
      intro fuel n h1 h2
      cases fuel with
      | zero =>
          have : n = 0 := by omega
          subst this; simp [natCharsAux]
      | succ fuel =>
          by_cases hn : n = 0
          · simp [natCharsAux, hn]
          · simp only [natCharsAux, hn, if_false]
            rw [natCharsAux_acc]
            have hdiv : n / 10 < 10 ^ k := by
              rw [Nat.div_lt_iff_lt_mul (by omega : 0 < 10)]
              calc n < 10 ^ (k + 1) := h2
                _ = 10 ^ k * 10 := by ring
            have hfuel : n / 10 ≤ fuel := by
              have := Nat.div_lt_self (by omega : 0 < n) (by omega : 1 < 10)
              omega
            have := ih fuel (n / 10) hfuel hdiv
            simp only [List.length_append, List.length_singleton]
            omega

theorem natChars_length_le (k n : Nat) (h : n < 10 ^ k) (hk : 1 ≤ k) :
    (natChars n).length ≤ k := by
  by_cases hn : n = 0
  · simp [natChars, hn]; omega
  · simp only [natChars, hn, if_false]
    exact natCharsAux_length_le k n n le_rfl h

theorem padStartZeros_length (k : Nat) (cs : List Char) (h : cs.length ≤ k) :
    (padStartZeros k cs).length = k := by
  simp [padStartZeros]
  omega

theorem padStartZeros_length_ge (k : Nat) (cs : List Char) :
    k ≤ (padStartZeros k cs).length := by
  simp [padStartZeros]
  omega

theorem jsSplit_ne_nil (sep : Char) (cs : List Char) : jsSplit sep cs ≠ [] := by
  cases cs with
  | nil => simp [jsSplit]
  | cons c rest =>
      by_cases h : c = sep
      · simp [jsSplit, h]
      · simp only [jsSplit, h, if_false]
        cases jsSplit sep rest <;> simp

theorem jsSplit_no_sep (sep : Char) (cs : List Char) (h : sep ∉ cs) :
    jsSplit sep cs = [cs] := by
  induction cs with
  | nil => simp [jsSplit]
  | cons c rest ih =>
      have hc : ¬ c = sep := by intro hh; exact h (hh ▸ List.mem_cons_self c rest)
      have hr : sep ∉ rest := fun hh => h (List.mem_cons_of_mem c hh)
      simp only [jsSplit, hc, if_false, ih hr]

theorem jsSplit_append_sep (sep : Char) (a rest : List Char) (h : sep ∉ a) :
    jsSplit sep (a ++ sep :: rest) = a :: jsSplit sep rest := by
  induction a with
  | nil => simp [jsSplit]
  | cons c t ih =>
      have hc : ¬ c = sep := by intro hh; exact h (hh ▸ List.mem_cons_self c t)
      have ht : sep ∉ t := fun hh => h (List.mem_cons_of_mem c hh)
      simp only [List.cons_append, jsSplit, hc, if_false]
      rw [show t.append (sep :: rest) = t ++ sep :: rest from rfl, ih ht]

/-! ## CSV escaping and parsing

`csvEscape` embeds the helper
`val => `"${String(val || '').replace(/"/g, '""')}"`` and `writeRow` the
`[...].map(csvEscape).join(',')` pattern used when appending a ticket row.
`jsMatchAll` embeds the parse `line.match(/("([^"]|"")*"|[^,]+)/g) || []`:
`quotedAux` performs the leftmost-greedy matching (with the single backtrack
step the regex engine performs when the greedy `([^"]|"")*` loop has consumed
a `""` pair and no closing quote follows: the pair is split and its first
quote closes the match), and the scanner advances over characters (commas)
where no alternative can match.  `unescapeToken` embeds
`v.replace(/^"|"$/g, '').replace(/""/g, '"')`.  `jsMatchAllAux` is fueled by
the line length, which always suffices since each token is nonempty.
-/

def escBody : List Char → List Char
  | [] => []
  | c :: rest => if c = '"' then '"' :: '"' :: escBody rest else c :: escBody rest

def csvEscape (v : String) : String := ⟨'"' :: escBody v.data ++ ['"']⟩

def writeRow (fields : List String) : String :=
  ⟨joinWith ',' (fields.map (fun f => '"' :: escBody f.data ++ ['"']))⟩

def quotedAux : List Char → Option (List Char × List Char)
  | [] => none
  | c :: rest =>
      if c = '"' then
        match rest with
        | [] => some (['"'], [])
        | c2 :: rest2 =>
            if c2 = '"' then
              match quotedAux rest2 with
              | some (m, r) => some ('"' :: '"' :: m, r)
              | none => some (['"'], '"' :: rest2)
            else some (['"'], rest)
      else
        match quotedAux rest with
        | some (m, r) => some (c :: m, r)
        | none => none

def matchTokenAt (cs : List Char) : Option (List Char × List Char) :=
  match cs with
  | [] => none
  | c :: rest =>
      if c = ',' then none
      else if c = '"' then
        match quotedAux rest with
        | some (m, r) => some ('"' :: m, r)
        | none => some (cs.takeWhile (fun x => x ≠ ','), cs.dropWhile (fun x => x ≠ ','))
      else some (cs.takeWhile (fun x => x ≠ ','), cs.dropWhile (fun x => x ≠ ','))

def jsMatchAllAux : Nat → List Char → List (List Char)
  | 0, _ => []
  | fuel + 1, cs =>
      match cs with
      | [] => []
      | c :: rest =>
          if c = ',' then jsMatchAllAux fuel rest
          else
            match matchTokenAt (c :: rest) with
            | some (tok, r) => tok :: jsMatchAllAux fuel r
            | none => []

def jsMatchAll (cs : List Char) : List (List Char) := jsMatchAllAux cs.length cs

def stripFirstQuote (cs : List Char) : List Char :=
  match cs with
  | [] => []
  | c :: t => if c = '"' then t else c :: t

def stripLastQuote (cs : List Char) : List Char :=
  if cs.getLast? = some '"' then cs.dropLast else cs

def collapseQuotes : List Char → List Char
  | [] => []
  | [c] => [c]
  | c :: c2 :: rest2 =>
      if c = '"' then
        if c2 = '"' then '"' :: collapseQuotes rest2
        else c :: collapseQuotes (c2 :: rest2)
      else c :: collapseQuotes (c2 :: rest2)

def unescapeToken (cs : List Char) : List Char :=
  collapseQuotes (stripLastQuote (stripFirstQuote cs))

def parseRowTokens (line : String) : List String :=
  (jsMatchAll line.data).map (fun t => ⟨unescapeToken t⟩)

/-- One parsed CSV object, as built by `header.forEach((h, i) => ...)` with
`cols[i] || ''` for missing columns, for a header of `n` columns. -/
def rowValues (n : Nat) (line : String) : List String :=
  (List.range n).map (fun i => ⟨unescapeToken ((jsMatchAll line.data).getD i [])⟩)

/-- The CSV fallback reader: every data line is parsed, none is skipped. -/
def readAllValues (n : Nat) (rows : List String) : List (List String) :=
  rows.map (rowValues n)

theorem quotedAux_cons_ne (c : Char) (cs : List Char) (h : ¬ c = '"') :
    quotedAux (c :: cs) =
      match quotedAux cs with
      | some (m, r) => some (c :: m, r)
      | none => none := by
  rw [quotedAux.eq_def]
  simp only [h, if_false]

theorem quotedAux_escBody (v : List Char) :
    ∀ rest : List Char, rest.head? ≠ some '"' →
      quotedAux (escBody v ++ '"' :: rest) = some (escBody v ++ ['"'], rest) := by
  induction v with
  | nil =>
      intro rest h
      cases rest with
      | nil => simp [escBody, quotedAux]
      | cons c2 r2 =>
          have hc2 : ¬ c2 = '"' := by
            intro hh; exact h (by simp [hh])
          simp [escBody, quotedAux, hc2]
  | cons a t ih =>
      intro rest h
      have hIH := ih rest h
      by_cases ha : a = '"'
      · subst ha
        simp only [escBody, if_pos rfl, List.cons_append, quotedAux]
        simp [List.append_eq, hIH]
      · simp only [escBody, if_neg ha, List.cons_append]
        rw [quotedAux_cons_ne a _ ha, hIH]

/-- The escaped form of one field, as emitted by `csvEscape`. -/
def escTokenOf (v : List Char) : List Char := '"' :: escBody v ++ ['"']

theorem matchTokenAt_escToken (v rest : List Char) (h : rest.head? ≠ some '"') :
    matchTokenAt ('"' :: (escBody v ++ '"' :: rest)) =
      some (escTokenOf v, rest) := by
  have hq := quotedAux_escBody v rest h
  have hc : ¬ ('"' : Char) = ',' := by decide
  simp only [matchTokenAt, hc, if_false, if_pos rfl, hq, escTokenOf]
  simp

theorem escTokenOf_length (v : List Char) :
    (escTokenOf v).length = (escBody v).length + 2 := by
  simp [escTokenOf]

theorem jsMatchAllAux_nil (fuel : Nat) : jsMatchAllAux fuel [] = [] := by
  cases fuel <;> simp [jsMatchAllAux]

theorem jsMatchAllAux_row :
    ∀ (fs : List (List Char)) (fuel : Nat),
      (joinWith ',' (fs.map escTokenOf)).length ≤ fuel →
      jsMatchAllAux fuel (joinWith ',' (fs.map escTokenOf)) = fs.map escTokenOf := by
  intro fs
  induction fs with
  | nil => intro fuel h; simp [joinWith, jsMatchAllAux_nil]
  | cons v fs' ih =>
      cases fs' with
      | nil =>
          intro fuel h
          simp only [List.map_cons, List.map_nil, joinWith] at h ⊢
          cases fuel with
          | zero =>
              rw [escTokenOf_length] at h
              omega
          | succ f =>
              have hm := matchTokenAt_escToken v [] (by simp)
              simp only [escTokenOf, List.cons_append] at hm ⊢
              simp only [jsMatchAllAux]
              have hc : ¬ ('"' : Char) = ',' := by decide
              simp only [hc, if_false, hm, jsMatchAllAux_nil]
      | cons v2 t =>
          intro fuel h
          simp only [List.map_cons, joinWith] at h ⊢
          cases fuel with
          | zero =>
              rw [List.length_append, escTokenOf_length] at h
              omega
          | succ f =>
              have hm := matchTokenAt_escToken v
                (',' :: joinWith ',' (escTokenOf v2 :: t.map escTokenOf)) (by simp)
              have hshape :
                  escTokenOf v ++ ',' :: joinWith ',' (escTokenOf v2 :: t.map escTokenOf) =
                    '"' :: (escBody v ++ '"' ::
                      (',' :: joinWith ',' (escTokenOf v2 :: t.map escTokenOf))) := by
                simp [escTokenOf]
              rw [hshape]
              simp only [jsMatchAllAux]
              have hc : ¬ ('"' : Char) = ',' := by decide
              simp only [hc, if_false, hm]
              have hlen2 :
                  (joinWith ',' (escTokenOf v2 :: t.map escTokenOf)).length + 3 ≤ f + 1 := by
                rw [List.length_append, escTokenOf_length] at h
                simp only [List.length_cons] at h
                omega
              cases f with
              | zero => omega
              | succ f2 =>
                  have hstep :
                      jsMatchAllAux (f2 + 1)
                          (',' :: joinWith ',' (escTokenOf v2 :: t.map escTokenOf)) =
                        jsMatchAllAux f2 (joinWith ',' (escTokenOf v2 :: t.map escTokenOf)) := by
                    simp [jsMatchAllAux]
                  rw [hstep]
                  have hih := ih f2 (by simp only [List.map_cons]; omega)
                  simp only [List.map_cons] at hih
                  rw [hih]

theorem jsMatchAll_writeRow (fields : List String) :
    jsMatchAll (writeRow fields).data = fields.map (fun f => escTokenOf f.data) := by
  have hdata :
      (writeRow fields).data =
        joinWith ',' ((fields.map (·.data)).map escTokenOf) := by
    simp only [writeRow, List.map_map]
    rfl
  rw [jsMatchAll, hdata, jsMatchAllAux_row (fields.map (·.data)) _ le_rfl]
  simp [List.map_map, Function.comp]

theorem escBody_eq_nil (v : List Char) (h : escBody v = []) : v = [] := by
  cases v with
  | nil => rfl
  | cons a t =>
      exfalso
      by_cases ha : a = '"' <;> simp [escBody, ha] at h

theorem collapseQuotes_escBody (v : List Char) :
    collapseQuotes (escBody v) = v := by
  induction v with
  | nil => simp [escBody, collapseQuotes]
  | cons a t ih =>
      by_cases ha : a = '"'
      · subst ha
        simp only [escBody, if_pos rfl, collapseQuotes, if_pos rfl]
        simp [ih]
      · simp only [escBody, if_neg ha]
        cases hE : escBody t with
        | nil =>
            have ht := escBody_eq_nil t hE
            subst ht
            simp [collapseQuotes]
        | cons b bs =>
            simp only [collapseQuotes, if_neg ha]
            rw [← hE, ih]

theorem unescapeToken_escToken (v : List Char) :
    unescapeToken (escTokenOf v) = v := by
  have h1 : stripFirstQuote (escTokenOf v) = escBody v ++ ['"'] := by
    simp [stripFirstQuote, escTokenOf]
  have h2 : stripLastQuote (escBody v ++ ['"']) = escBody v := by
    unfold stripLastQuote
    rw [List.getLast?_concat]
    simp only [if_pos rfl]
    exact List.dropLast_concat ..
  unfold unescapeToken
  rw [h1, h2]
  exact collapseQuotes_escBody v

/-- C2: writing a ticket's attribute values as one CSV row — every value
wrapped in double quotes with embedded quotes doubled, joined by commas —
and parsing that row back with the route's regular-expression parser and
unescaping yields exactly the original values, including values containing
commas and double-quote characters. -/
theorem C2_csv_row_roundtrip (fields : List String) :
    parseRowTokens (writeRow fields) = fields := by
  unfold parseRowTokens
  rw [jsMatchAll_writeRow, List.map_map]
  have hcong : ∀ f ∈ fields,
      ((fun t => (⟨unescapeToken t⟩ : String)) ∘ (fun f : String => escTokenOf f.data)) f
        = id f := by
    intro f _
    simp only [Function.comp, id]
    rw [unescapeToken_escToken]
  rw [List.map_congr_left hcong, List.map_id]

theorem unescapeToken_nil : unescapeToken [] = [] := rfl

theorem rowValues_writeRow (n : Nat) (fl : List String) (h : fl.length ≤ n) :
    rowValues n (writeRow fl) = fl ++ List.replicate (n - fl.length) "" := by
  apply List.ext_getElem
  · simp [rowValues]
    omega
  · intro i h1 h2
    simp only [rowValues, List.getElem_map, List.getElem_range]
    rw [jsMatchAll_writeRow]
    by_cases hi : i < fl.length
    · rw [List.getD_eq_getElem?_getD, List.getElem?_map,
        List.getElem?_eq_getElem hi]
      simp only [Option.map_some', Option.getD_some]
      rw [unescapeToken_escToken]
      rw [List.getElem_append_left hi]
    · have hge : fl.length ≤ i := by omega
      rw [List.getD_eq_getElem?_getD, List.getElem?_map,
        List.getElem?_eq_none (by simpa using hge)]
      simp only [Option.map_none', Option.getD_none, unescapeToken_nil]
      rw [List.getElem_append_right hge]
      simp [List.getElem_replicate]

/-- C9: parsing a tickets CSV whose data rows may have fewer columns than the
`n`-column header never aborts: every row yields an entry, rows with the full
column count round-trip to their original values, and the missing columns of
a shorter (corrupted) row are filled with the empty value. -/
theorem C9_malformed_row_nullfill (n : Nat) (rowFields : List (List String))
    (h : ∀ fl ∈ rowFields, fl.length ≤ n) :
    readAllValues n (rowFields.map writeRow) =
      rowFields.map (fun fl => fl ++ List.replicate (n - fl.length) "") := by
  unfold readAllValues
  rw [List.map_map]
  apply List.map_congr_left
  intro fl hfl
  exact rowValues_writeRow n fl (h fl hfl)

/-- Witness for C9: a 3-column header, one intact row (with a comma and a
quote inside values) and one corrupted row missing its third column. -/
theorem C9_witness :
    readAllValues 3 ([["a,x", "b\"y", "c"], ["u", "v"]].map writeRow) =
      [["a,x", "b\"y", "c"], ["u", "v", ""]] := by
  have h := C9_malformed_row_nullfill 3 [["a,x", "b\"y", "c"], ["u", "v"]]
    (by intro fl hfl; fin_cases hfl <;> simp)
  rw [h]
  rfl

/-! ## Identifier generator (`generateTicketId`, `BUILDING_CODES`,
`CATEGORY_SHORT`)

`count` is the number of existing tickets in the requested category: the
primary path counts Record Store documents
(`Ticket.countDocuments({ category })`), the CSV fallback counts mirror rows
whose category column matches.  The theorem quantifies over `count`, covering
both paths. -/

def BUILDING_CODES (b : String) : Option String :=
  if b = "LOS1" then some ("LOS1")
  else if b = "LOS2" then some ("LOS2")
  else if b = "LOS3" then some ("LOS3")
  else if b = "LOS4" then some ("LOS4")
  else if b = "LOS5" then some ("LOS5")
  else none

def CATEGORY_SHORT (c : String) : Option String :=
  if c = "Network" then some ("NET")
  else if c = "Server" then some ("SER")
  else if c = "Storage" then some ("STOR")
  else if c = "Power" then some ("PWD")
  else if c = "Cooling" then some ("COOL")
  else if c = "Security" then some ("SEC")
  else if c = "Access Control" then some ("AC")
  else if c = "Application" then some ("APP")
  else if c = "Database" then some ("DBS")
  else none

def generateTicketId (category building yyyymmdd : String) (count : Nat) : String :=
  "KASI-" ++ (BUILDING_CODES building).getD ("LOS5") ++ "-" ++ yyyymmdd ++ "-" ++
    (CATEGORY_SHORT category).getD ("GEN") ++ "-" ++ ⟨padStartZeros 4 (natChars (count + 1))⟩

/-- The Record Store document count the primary path feeds into the sequence
number: the number of stored tickets in the given category. -/
def categoryCount (storedCategories : List String) (category : String) : Nat :=
  (storedCategories.filter (fun c => c = category)).length

/-- `generateTicketId` as invoked by the route on the primary (Record Store)
path. -/
def generateTicketIdFromStore (storedCategories : List String)
    (category building yyyymmdd : String) : String :=
  generateTicketId category building yyyymmdd (categoryCount storedCategories category)

def knownBuildings : List String := ["LOS1", "LOS2", "LOS3", "LOS4", "LOS5"]

theorem BUILDING_CODES_getD (b : String) :
    (BUILDING_CODES b).getD ("LOS5") = if b ∈ knownBuildings then b else "LOS5" := by
  by_cases h1 : b = "LOS1"
  · subst h1; decide
  by_cases h2 : b = "LOS2"
  · subst h2; decide
  by_cases h3 : b = "LOS3"
  · subst h3; decide
  by_cases h4 : b = "LOS4"
  · subst h4; decide
  by_cases h5 : b = "LOS5"
  · subst h5; decide
  simp [BUILDING_CODES, knownBuildings, h1, h2, h3, h4, h5]

theorem CATEGORY_SHORT_length (category code : String)
    (h : CATEGORY_SHORT category = some code) :
    2 ≤ code.length ∧ code.length ≤ 4 := by
  unfold CATEGORY_SHORT at h
  split_ifs at h <;> simp only [Option.some.injEq] at h
  all_goals (subst h; decide)

/-- C1: the generated ticket identifier is
`KASI-<buildingCode>-<yyyymmdd>-<categoryShortCode>-<sequence>`, where the
building code is the building name itself when it is one of the known
building names and the fixed fallback `LOS5` otherwise, the category short
code is the fixed 2–4 letter code for a known category and `GEN` otherwise,
and the sequence is the count of existing tickets in the category plus one,
zero-padded to 4 digits. -/
theorem C1_ticket_id_format (category building yyyymmdd : String) (count : Nat) :
    generateTicketId category building yyyymmdd count =
      "KASI-" ++ (if building ∈ knownBuildings then building else "LOS5") ++ "-" ++
        yyyymmdd ++ "-" ++ (CATEGORY_SHORT category).getD ("GEN") ++ "-" ++
        ⟨padStartZeros 4 (natChars (count + 1))⟩
    ∧ parseNatChars (padStartZeros 4 (natChars (count + 1))) = count + 1
    ∧ 4 ≤ (padStartZeros 4 (natChars (count + 1))).length
    ∧ (count + 1 < 10000 → (padStartZeros 4 (natChars (count + 1))).length = 4)
    ∧ (∀ code, CATEGORY_SHORT category = some code →
        2 ≤ code.length ∧ code.length ≤ 4) := by
  refine ⟨?_, ?_, ?_, ?_, ?_⟩
  · unfold generateTicketId
    rw [BUILDING_CODES_getD]
  · rw [parse_padStartZeros, parse_natChars]
  · exact padStartZeros_length_ge 4 (natChars (count + 1))
  · intro hlt
    exact padStartZeros_length 4 (natChars (count + 1))
      (natChars_length_le 4 (count + 1) (by norm_num; omega) (by omega))
  · intro code h
    exact CATEGORY_SHORT_length category code h

/-- Witness for C1 at a concrete category, building, date and count. -/
theorem C1_witness :
    generateTicketId ("Network") ("LOS2") ("20251011") 2 =
      "KASI-" ++ (if ("LOS2" : String) ∈ knownBuildings then "LOS2" else "LOS5") ++ "-" ++
        "20251011" ++ "-" ++ (CATEGORY_SHORT ("Network")).getD ("GEN") ++ "-" ++
        ⟨padStartZeros 4 (natChars 3)⟩
    ∧ (3 : Nat) < 10000
    ∧ (padStartZeros 4 (natChars 3)).length = 4
    ∧ 2 ≤ ("NET" : String).length ∧ ("NET" : String).length ≤ 4 :=
  ⟨(C1_ticket_id_format ("Network") ("LOS2") ("20251011") 2).1,
   by decide,
   (C1_ticket_id_format ("Network") ("LOS2") ("20251011") 2).2.2.2.1 (by decide),
   (C1_ticket_id_format ("Network") ("LOS2") ("20251011") 2).2.2.2.2 ("NET") (by decide)⟩

/-! ## Ticket documents, request bodies, and the CSV mirror row

`TicketDoc` follows `ticketSchema` in `models/Ticket.js` (dates as ISO
strings, `closedAt` as the separately tracked instant written by the update
route).  `TicketBody` is a parsed JSON request body: `none` means the key is
absent from the request.  `CsvTicketRow` is one parsed row of `tickets.csv`
keyed by the header columns.  `jsDateISO` abstracts
`input => new Date(input).toISOString()` (`none` for an invalid date) and
`nowISO` abstracts `new Date().toISOString()`. -/

inductive StrOrList
  | arr (xs : List String)
  | str (s : String)
deriving DecidableEq

structure TicketDoc where
  ticket_id : String
  category : String
  sub_category : String
  opened : String
  reported_by : String
  priority : String
  building : String
  location : String
  impacted : String
  description : String
  detectedBy : String
  time_detected : Option String
  root_cause : String
  actions_taken : String
  status : String
  assigned_to : List String
  resolution_summary : String
  resolution_time : Option String
  duration : String
  post_review : Bool
  attachments : List String
  escalation_history : String
  closed : Option String
  sla_breach : Bool
  closedAt : Option String
deriving DecidableEq

structure TicketBody where
  ticket_id : Option String
  category : Option String
  sub_category : Option String
  opened : Option String
  reported_by : Option String
  priority : Option String
  building : Option String
  location : Option String
  impacted : Option String
  description : Option String
  detectedBy : Option String
  time_detected : Option String
  root_cause : Option String
  actions_taken : Option String
  status : Option String
  assigned_to : Option StrOrList
  resolution_summary : Option String
  resolution_time : Option String
  duration : Option String
  post_review : Option Bool
  attachments_field : Option String
  escalation_history : Option String
  closed : Option String
  sla_breach : Option Bool
deriving DecidableEq

structure CsvTicketRow where
  ticket_id : String
  category : String
  sub_category : String
  opened : String
  reported_by : String
  priority : String
  building : String
  location : String
  impacted : String
  description : String
  detectedBy : String
  time_detected : String
  root_cause : String
  actions_taken : String
  status : String
  assigned_to : String
  resolution_summary : String
  resolution_time : String
  duration : String
  post_review : String
  attachments : String
  escalation_history : String
  closed : String
  sla_breach : String
deriving DecidableEq

/-- `parseToISO` from the route: empty for a missing/empty input, the input
itself when it already ends in `Z`, otherwise the `Date` re-rendering (empty
when invalid). -/
def parseToISO (jsDateISO : String → Option String) : Option String → String
  | none => ""
  | some s =>
      if s = "" then ""
      else if s.data.getLast? = some 'Z' then s
      else (jsDateISO s).getD ("")

/-- `formatDateTime` from the route: ISO rendering of `new Date(input)`,
empty when invalid. -/
def formatDateTime (jsDateISO : String → Option String) (s : String) : String :=
  (jsDateISO s).getD ("")

/-- The `updateObj` built by `PUT /:id` for the Record Store (`$set` body),
including the `closedAt` transition logic. -/
def updateObj (jsDateISO : String → Option String) (nowISO : String)
    (doc : TicketDoc) (body : TicketBody) (files : List String) : TicketDoc :=
  let assignedArr :=
    match body.assigned_to with
    | some (.arr xs) => xs
    | some (.str s) => (splitSemis s).filter (fun x => x ≠ "")
    | none => doc.assigned_to
  let post_review_flag := body.post_review.getD doc.post_review
  let sla_breach_flag := body.sla_breach.getD doc.sla_breach
  let fileNames :=
    if joinSemis files ≠ "" then joinSemis files else joinSemis doc.attachments
  let attachmentsArr :=
    if fileNames ≠ "" then (splitSemis fileNames).filter (fun x => x ≠ "")
    else doc.attachments
  let newStatus := body.status.getD doc.status
  { ticket_id := doc.ticket_id
    category := body.category.getD doc.category
    sub_category := body.sub_category.getD doc.sub_category
    opened :=
      if parseToISO jsDateISO body.opened ≠ "" then parseToISO jsDateISO body.opened
      else doc.opened
    reported_by := body.reported_by.getD doc.reported_by
    priority := body.priority.getD doc.priority
    building := body.building.getD doc.building
    location := body.location.getD doc.location
    impacted := body.impacted.getD doc.impacted
    description := body.description.getD doc.description
    detectedBy := body.detectedBy.getD doc.detectedBy
    time_detected :=
      if parseToISO jsDateISO body.time_detected ≠ "" then
        some (parseToISO jsDateISO body.time_detected)
      else doc.time_detected
    root_cause := body.root_cause.getD doc.root_cause
    actions_taken := body.actions_taken.getD doc.actions_taken
    status := newStatus
    assigned_to := assignedArr
    resolution_summary := body.resolution_summary.getD doc.resolution_summary
    resolution_time :=
      if parseToISO jsDateISO body.resolution_time ≠ "" then
        some (parseToISO jsDateISO body.resolution_time)
      else doc.resolution_time
    duration := body.duration.getD doc.duration
    post_review := post_review_flag
    attachments := attachmentsArr
    escalation_history := body.escalation_history.getD doc.escalation_history
    closed :=
      if parseToISO jsDateISO body.closed ≠ "" then
        some (parseToISO jsDateISO body.closed)
      else doc.closed
    sla_breach := sla_breach_flag
    closedAt :=
      if newStatus = "Closed" ∧ doc.status ≠ "Closed" then some nowISO
      else if doc.status = "Closed" ∧ newStatus ≠ "Closed" then none
      else doc.closedAt }

/-- The CSV-side merge of `PUT /:id`: `{ ...old, ...body, assigned_to,
post_review, sla_breach, attachments: fileNames }`, written back over the
header columns. -/
def csvUpdateRow (old : CsvTicketRow) (body : TicketBody) (files : List String) :
    CsvTicketRow :=
  let assigned_to :=
    match body.assigned_to with
    | some (.arr xs) => joinSemis xs
    | some (.str s) => if s ≠ "" then s else old.assigned_to
    | none => old.assigned_to
  let post_review :=
    match body.post_review with
    | some b => if b then "Yes" else "No"
    | none => old.post_review
  let sla_breach :=
    match body.sla_breach with
    | some b => if b then "Yes" else "No"
    | none => old.sla_breach
  let fileNames := if joinSemis files ≠ "" then joinSemis files else old.attachments
  { ticket_id := body.ticket_id.getD old.ticket_id
    category := body.category.getD old.category
    sub_category := body.sub_category.getD old.sub_category
    opened := body.opened.getD old.opened
    reported_by := body.reported_by.getD old.reported_by
    priority := body.priority.getD old.priority
    building := body.building.getD old.building
    location := body.location.getD old.location
    impacted := body.impacted.getD old.impacted
    description := body.description.getD old.description
    detectedBy := body.detectedBy.getD old.detectedBy
    time_detected := body.time_detected.getD old.time_detected
    root_cause := body.root_cause.getD old.root_cause
    actions_taken := body.actions_taken.getD old.actions_taken
    status := body.status.getD old.status
    assigned_to := assigned_to
    resolution_summary := body.resolution_summary.getD old.resolution_summary
    resolution_time := body.resolution_time.getD old.resolution_time
    duration := body.duration.getD old.duration
    post_review := post_review
    attachments := fileNames
    escalation_history := body.escalation_history.getD old.escalation_history
    closed := body.closed.getD old.closed
    sla_breach := sla_breach }

structure HistoryEntry where
  ticket_id : String
  timestamp : String
  action : String
  changes : String
  editor : String
deriving DecidableEq

inductive PutResponse
  | success
  | notFound
  | noTicketsFile
deriving DecidableEq

/-- The persistent state touched by the routes: Record Store documents, the
parsed CSV mirror rows (`none` when `tickets.csv` does not exist), and the
two history logs. -/
structure StoreState where
  db : List TicketDoc
  csvRows : Option (List CsvTicketRow)
  historyCsv : List HistoryEntry
  historyDb : List HistoryEntry
deriving DecidableEq

/-- `Ticket.findOne({ ticket_id: id })` followed by
`Ticket.updateOne({ ticket_id: id }, { $set: updateObj })`: the first
matching document is replaced by its merge. -/
def updateFirstDoc (jsDateISO : String → Option String) (nowISO : String)
    (id : String) (body : TicketBody) (files : List String) :
    List TicketDoc → List TicketDoc
  | [] => []
  | d :: rest =>
      if d.ticket_id = id then updateObj jsDateISO nowISO d body files :: rest
      else d :: updateFirstDoc jsDateISO nowISO id body files rest

/-- `PUT /tickets/:id`: Record Store update first, then the CSV rewrite; the
404 `Ticket not found` return happens after the store update and before any
history append.  `stringifyBody` abstracts `JSON.stringify(body)`. -/
def putTicket (jsDateISO : String → Option String) (nowISO : String)
    (stringifyBody : TicketBody → String) (st : StoreState) (id : String)
    (body : TicketBody) (files : List String) : StoreState × PutResponse :=
  let db' := updateFirstDoc jsDateISO nowISO id body files st.db
  match st.csvRows with
  | none => ({ st with db := db' }, PutResponse.noTicketsFile)
  | some rows =>
      if rows.any (fun r => r.ticket_id == id) then
        let rows' := rows.map (fun r => if r.ticket_id = id then csvUpdateRow r body files else r)
        let entry : HistoryEntry :=
          { ticket_id := id, timestamp := nowISO, action := "update",
            changes := stringifyBody body, editor := body.reported_by.getD ("") }
        ({ db := db', csvRows := some rows',
           historyCsv := st.historyCsv ++ [entry],
           historyDb := st.historyDb ++ [entry] }, PutResponse.success)
      else ({ st with db := db' }, PutResponse.notFound)

/-- The CSV row appended by `POST /tickets`, in header column order. -/
def createCsvRow (jsDateISO : String → Option String) (nowISO : String)
    (body : TicketBody) (tid : String) (files : List String) : CsvTicketRow :=
  { ticket_id := tid
    category := body.category.getD ("")
    sub_category := body.sub_category.getD ("")
    opened :=
      match body.opened with
      | some s => if s = "" then nowISO else formatDateTime jsDateISO s
      | none => nowISO
    reported_by := body.reported_by.getD ("")
    priority := body.priority.getD ("")
    building := body.building.getD ("")
    location := body.location.getD ("")
    impacted := body.impacted.getD ("")
    description := body.description.getD ("")
    detectedBy := body.detectedBy.getD ("")
    time_detected := body.time_detected.getD ("")
    root_cause := body.root_cause.getD ("")
    actions_taken := body.actions_taken.getD ("")
    status :=
      match body.status with
      | some s => if s = "" then "Open" else s
      | none => "Open"
    assigned_to :=
      match body.assigned_to with
      | some (.arr xs) => joinSemis xs
      | some (.str s) => s
      | none => ""
    resolution_summary := body.resolution_summary.getD ("")
    resolution_time := formatDateTime jsDateISO (body.resolution_time.getD (""))
    duration := body.duration.getD ("")
    post_review := if body.post_review.getD false then "Yes" else "No"
    attachments := joinSemis files
    escalation_history := body.escalation_history.getD ("")
    closed := formatDateTime jsDateISO (body.closed.getD (""))
    sla_breach := if body.sla_breach.getD false then "Yes" else "No" }

/-- The Record Store document built by `POST /tickets`. -/
def createDoc (jsDateISO : String → Option String) (nowISO : String)
    (body : TicketBody) (tid : String) (files : List String) : TicketDoc :=
  { ticket_id := tid
    category := body.category.getD ("")
    sub_category := body.sub_category.getD ("")
    opened :=
      if parseToISO jsDateISO body.opened ≠ "" then parseToISO jsDateISO body.opened
      else nowISO
    reported_by := body.reported_by.getD ("")
    priority := body.priority.getD ("")
    building := body.building.getD ("")
    location := body.location.getD ("")
    impacted := body.impacted.getD ("")
    description := body.description.getD ("")
    detectedBy := body.detectedBy.getD ("")
    time_detected :=
      if parseToISO jsDateISO body.time_detected ≠ "" then
        some (parseToISO jsDateISO body.time_detected)
      else none
    root_cause := body.root_cause.getD ("")
    actions_taken := body.actions_taken.getD ("")
    status :=
      match body.status with
      | some s => if s = "" then "Open" else s
      | none => "Open"
    assigned_to :=
      match body.assigned_to with
      | some (.arr xs) => xs
      | some (.str s) => (splitSemis s).filter (fun x => x ≠ "")
      | none => []
    resolution_summary := body.resolution_summary.getD ("")
    resolution_time :=
      if parseToISO jsDateISO body.resolution_time ≠ "" then
        some (parseToISO jsDateISO body.resolution_time)
      else none
    duration := body.duration.getD ("")
    post_review := body.post_review.getD false
    attachments :=
      if joinSemis files ≠ "" then (splitSemis (joinSemis files)).filter (fun x => x ≠ "")
      else []
    escalation_history := body.escalation_history.getD ("")
    closed :=
      if parseToISO jsDateISO body.closed ≠ "" then
        some (parseToISO jsDateISO body.closed)
      else none
    sla_breach := body.sla_breach.getD false
    closedAt := none }

structure CreateResult where
  state : StoreState
  success : Bool
  ticket_id : String
deriving DecidableEq

/-- `body.ticket_id || await generateTicketId(body.category, body.building)`. -/
def createTicketId (st : StoreState) (body : TicketBody) (yyyymmdd : String) : String :=
  let generated :=
    generateTicketId (body.category.getD ("")) (body.building.getD ("")) yyyymmdd
      (categoryCount (st.db.map (·.category)) (body.category.getD ("")))
  match body.ticket_id with
  | some t => if t = "" then generated else t
  | none => generated

/-- `POST /tickets` with the ticket id already computed: append the CSV row
first, then attempt the Record Store insert — the schema's unique index on
`ticket_id` rejects a duplicate, and the route catches the error and
continues — then append both history entries; the response reports success
either way.  `stringifyCreate` abstracts
`JSON.stringify({ ...body, attachments: fileNames })`. -/
def postCreateWithId (jsDateISO : String → Option String) (nowISO : String)
    (stringifyCreate : TicketBody → String → String) (st : StoreState)
    (body : TicketBody) (files : List String) (tid : String) : CreateResult :=
  let row := createCsvRow jsDateISO nowISO body tid files
  let csv' := st.csvRows.getD [] ++ [row]
  let db' :=
    if st.db.any (fun d => d.ticket_id == tid) then st.db
    else st.db ++ [createDoc jsDateISO nowISO body tid files]
  let entry : HistoryEntry :=
    { ticket_id := tid, timestamp := nowISO, action := "create",
      changes := stringifyCreate body (joinSemis files),
      editor := body.reported_by.getD ("") }
  { state :=
      { db := db', csvRows := some csv',
        historyCsv := st.historyCsv ++ [entry],
        historyDb := st.historyDb ++ [entry] },
    success := true, ticket_id := tid }

/-- The full `POST /tickets` handler. -/
def postCreate (jsDateISO : String → Option String) (nowISO yyyymmdd : String)
    (stringifyCreate : TicketBody → String → String) (st : StoreState)
    (body : TicketBody) (files : List String) : CreateResult :=
  postCreateWithId jsDateISO nowISO stringifyCreate st body files
    (createTicketId st body yyyymmdd)

theorem jsSplit_joinWith (sep : Char) :
    ∀ xs : List (List Char), xs ≠ [] → (∀ x ∈ xs, sep ∉ x) →
      jsSplit sep (joinWith sep xs) = xs := by
  intro xs
  induction xs with
  | nil => intro h; exact absurd rfl h
  | cons x t ih =>
      intro _ hmem
      cases t with
      | nil =>
          simp only [joinWith]
          exact jsSplit_no_sep sep x (hmem x (List.mem_cons_self x []))
      | cons y t2 =>
          simp only [joinWith]
          rw [jsSplit_append_sep sep x _ (hmem x (List.mem_cons_self x _))]
          rw [ih (by simp) (fun z hz => hmem z (List.mem_cons_of_mem x hz))]

theorem joinSemis_ne_empty (xs : List String) (hne : xs ≠ [])
    (hx : ∀ x ∈ xs, x ≠ "") : joinSemis xs ≠ "" := by
  intro hcontra
  have hdata : joinWith ';' (xs.map (·.data)) = [] := congrArg String.data hcontra
  cases xs with
  | nil => exact hne rfl
  | cons x t =>
      cases t with
      | nil =>
          simp only [List.map_cons, List.map_nil, joinWith] at hdata
          exact hx x (List.mem_cons_self x []) (by cases x; simp_all)
      | cons y t2 => simp [joinWith] at hdata

theorem splitSemis_joinSemis (xs : List String) (hne : xs ≠ [])
    (h : ∀ x ∈ xs, ';' ∉ x.data) : splitSemis (joinSemis xs) = xs := by
  unfold splitSemis joinSemis
  rw [show (⟨joinWith ';' (xs.map (·.data))⟩ : String).data
      = joinWith ';' (xs.map (·.data)) from rfl]
  rw [jsSplit_joinWith ';' (xs.map (·.data)) (by simpa using hne)
    (by intro x hx; rcases List.mem_map.mp hx with ⟨y, hy, rfl⟩; exact h y hy)]
  rw [List.map_map]
  exact (List.map_congr_left (fun y _ => rfl)).trans (List.map_id xs)

theorem filter_ne_empty_eq_self (xs : List String) (h : ∀ x ∈ xs, x ≠ "") :
    xs.filter (fun x => x ≠ "") = xs := by
  induction xs with
  | nil => rfl
  | cons x t ih =>
      simp only [List.filter_cons]
      rw [if_pos (by simpa using h x (List.mem_cons_self x t))]
      rw [ih (fun z hz => h z (List.mem_cons_of_mem x hz))]

theorem updateObj_attachments_noFiles (jsDateISO : String → Option String)
    (nowISO : String) (doc : TicketDoc) (body : TicketBody)
    (hclean : ∀ a ∈ doc.attachments, a ≠ "" ∧ ';' ∉ a.data) :
    (updateObj jsDateISO nowISO doc body []).attachments = doc.attachments := by
  have hjoin : joinSemis [] = "" := rfl
  have hproj : (updateObj jsDateISO nowISO doc body []).attachments =
      (if (if joinSemis ([] : List String) ≠ "" then joinSemis ([] : List String)
           else joinSemis doc.attachments) ≠ "" then
        (splitSemis (if joinSemis ([] : List String) ≠ "" then joinSemis ([] : List String)
           else joinSemis doc.attachments)).filter (fun x => x ≠ "")
      else doc.attachments) := rfl
  by_cases hA : doc.attachments = []
  · rw [hproj, hA]
    simp [joinSemis, joinWith]
  · have hne : joinSemis doc.attachments ≠ "" :=
      joinSemis_ne_empty doc.attachments hA (fun a ha => (hclean a ha).1)
    have hsplit : splitSemis (joinSemis doc.attachments) = doc.attachments :=
      splitSemis_joinSemis doc.attachments hA (fun a ha => (hclean a ha).2)
    have hfil := filter_ne_empty_eq_self doc.attachments (fun a ha => (hclean a ha).1)
    rw [hproj, hjoin]
    have hinner : (if ("" : String) ≠ "" then ("" : String) else joinSemis doc.attachments)
        = joinSemis doc.attachments := if_neg (by simp)
    rw [hinner]
    rw [if_pos hne, hsplit, hfil]

/-- C4: on update, `closedAt` is set to the current instant exactly when the
status transitions from a non-`Closed` value to `Closed` (including
re-closing a reopened ticket), cleared exactly when it transitions from
`Closed` to a non-`Closed` value, and left unchanged by any update whose
status does not cross the `Closed` boundary. -/
theorem C4_closedAt_transitions (jsDateISO : String → Option String)
    (nowISO : String) (doc : TicketDoc) (body : TicketBody) (files : List String) :
    (body.status.getD doc.status = "Closed" → doc.status ≠ "Closed" →
      (updateObj jsDateISO nowISO doc body files).closedAt = some nowISO)
    ∧ (doc.status = "Closed" → body.status.getD doc.status ≠ "Closed" →
      (updateObj jsDateISO nowISO doc body files).closedAt = none)
    ∧ ((body.status.getD doc.status = "Closed" ↔ doc.status = "Closed") →
      (updateObj jsDateISO nowISO doc body files).closedAt = doc.closedAt) := by
  refine ⟨?_, ?_, ?_⟩
  · intro h1 h2
    simp [updateObj, h1, h2]
  · intro h1 h2
    rw [h1] at h2
    simp [updateObj, h1, h2]
  · intro hiff
    by_cases hc : doc.status = "Closed"
    · have hb : body.status.getD doc.status = "Closed" := hiff.mpr hc
      rw [hc] at hb
      simp [updateObj, hc, hb]
    · have hb : ¬ body.status.getD doc.status = "Closed" := fun hh => hc (hiff.mp hh)
      simp [updateObj, hc, hb]

/-- C3: a partial update leaves every field the request does not supply
unchanged, in both the Record Store document (`updateObj`) and the CSV row
merge; in particular an update supplying only `status` leaves `description`
unchanged.  An update without new uploads keeps the stored attachments (on
the Record Store side the list survives the `join(';')`/`split(';')` round
trip when the stored names are nonempty and contain no `;`). -/
theorem C3_partial_update_frame (jsDateISO : String → Option String)
    (nowISO : String) (doc : TicketDoc) (old : CsvTicketRow) (body : TicketBody)
    (files : List String) :
    (updateObj jsDateISO nowISO doc body files).ticket_id = doc.ticket_id
    ∧ (body.ticket_id = none → (csvUpdateRow old body files).ticket_id = old.ticket_id)
    ∧ (body.category = none →
        (updateObj jsDateISO nowISO doc body files).category = doc.category
        ∧ (csvUpdateRow old body files).category = old.category)
    ∧ (body.sub_category = none →
        (updateObj jsDateISO nowISO doc body files).sub_category = doc.sub_category
        ∧ (csvUpdateRow old body files).sub_category = old.sub_category)
    ∧ (body.reported_by = none →
        (updateObj jsDateISO nowISO doc body files).reported_by = doc.reported_by
        ∧ (csvUpdateRow old body files).reported_by = old.reported_by)
    ∧ (body.priority = none →
        (updateObj jsDateISO nowISO doc body files).priority = doc.priority
        ∧ (csvUpdateRow old body files).priority = old.priority)
    ∧ (body.building = none →
        (updateObj jsDateISO nowISO doc body files).building = doc.building
        ∧ (csvUpdateRow old body files).building = old.building)
    ∧ (body.location = none →
        (updateObj jsDateISO nowISO doc body files).location = doc.location
        ∧ (csvUpdateRow old body files).location = old.location)
    ∧ (body.impacted = none →
        (updateObj jsDateISO nowISO doc body files).impacted = doc.impacted
        ∧ (csvUpdateRow old body files).impacted = old.impacted)
    ∧ (body.description = none →
        (updateObj jsDateISO nowISO doc body files).description = doc.description
        ∧ (csvUpdateRow old body files).description = old.description)
    ∧ (body.detectedBy = none →
        (updateObj jsDateISO nowISO doc body files).detectedBy = doc.detectedBy
        ∧ (csvUpdateRow old body files).detectedBy = old.detectedBy)
    ∧ (body.root_cause = none →
        (updateObj jsDateISO nowISO doc body files).root_cause = doc.root_cause
        ∧ (csvUpdateRow old body files).root_cause = old.root_cause)
    ∧ (body.actions_taken = none →
        (updateObj jsDateISO nowISO doc body files).actions_taken = doc.actions_taken
        ∧ (csvUpdateRow old body files).actions_taken = old.actions_taken)
    ∧ (body.status = none →
        (updateObj jsDateISO nowISO doc body files).status = doc.status
        ∧ (csvUpdateRow old body files).status = old.status)
    ∧ (body.resolution_summary = none →
        (updateObj jsDateISO nowISO doc body files).resolution_summary = doc.resolution_summary
        ∧ (csvUpdateRow old body files).resolution_summary = old.resolution_summary)
    ∧ (body.duration = none →
        (updateObj jsDateISO nowISO doc body files).duration = doc.duration
        ∧ (csvUpdateRow old body files).duration = old.duration)
    ∧ (body.escalation_history = none →
        (updateObj jsDateISO nowISO doc body files).escalation_history = doc.escalation_history
        ∧ (csvUpdateRow old body files).escalation_history = old.escalation_history)
    ∧ (body.opened = none →
        (updateObj jsDateISO nowISO doc body files).opened = doc.opened
        ∧ (csvUpdateRow old body files).opened = old.opened)
    ∧ (body.time_detected = none →
        (updateObj jsDateISO nowISO doc body files).time_detected = doc.time_detected
        ∧ (csvUpdateRow old body files).time_detected = old.time_detected)
    ∧ (body.resolution_time = none →
        (updateObj jsDateISO nowISO doc body files).resolution_time = doc.resolution_time
        ∧ (csvUpdateRow old body files).resolution_time = old.resolution_time)
    ∧ (body.closed = none →
        (updateObj jsDateISO nowISO doc body files).closed = doc.closed
        ∧ (csvUpdateRow old body files).closed = old.closed)
    ∧ (body.assigned_to = none →
        (updateObj jsDateISO nowISO doc body files).assigned_to = doc.assigned_to
        ∧ (csvUpdateRow old body files).assigned_to = old.assigned_to)
    ∧ (body.post_review = none →
        (updateObj jsDateISO nowISO doc body files).post_review = doc.post_review
        ∧ (csvUpdateRow old body files).post_review = old.post_review)
    ∧ (body.sla_breach = none →
        (updateObj jsDateISO nowISO doc body files).sla_breach = doc.sla_breach
        ∧ (csvUpdateRow old body files).sla_breach = old.sla_breach)
    ∧ (files = [] → (csvUpdateRow old body files).attachments = old.attachments)
    ∧ (files = [] → (∀ a ∈ doc.attachments, a ≠ "" ∧ ';' ∉ a.data) →
        (updateObj jsDateISO nowISO doc body files).attachments = doc.attachments) :=
  ⟨by simp [updateObj],
   fun h => by simp [csvUpdateRow, h],
   fun h => ⟨by simp [updateObj, h], by simp [csvUpdateRow, h]⟩,
   fun h => ⟨by simp [updateObj, h], by simp [csvUpdateRow, h]⟩,
   fun h => ⟨by simp [updateObj, h], by simp [csvUpdateRow, h]⟩,
   fun h => ⟨by simp [updateObj, h], by simp [csvUpdateRow, h]⟩,
   fun h => ⟨by simp [updateObj, h], by simp [csvUpdateRow, h]⟩,
   fun h => ⟨by simp [updateObj, h], by simp [csvUpdateRow, h]⟩,
   fun h => ⟨by simp [updateObj, h], by simp [csvUpdateRow, h]⟩,
   fun h => ⟨by simp [updateObj, h], by simp [csvUpdateRow, h]⟩,
   fun h => ⟨by simp [updateObj, h], by simp [csvUpdateRow, h]⟩,
   fun h => ⟨by simp [updateObj, h], by simp [csvUpdateRow, h]⟩,
   fun h => ⟨by simp [updateObj, h], by simp [csvUpdateRow, h]⟩,
   fun h => ⟨by simp [updateObj, h], by simp [csvUpdateRow, h]⟩,
   fun h => ⟨by simp [updateObj, h], by simp [csvUpdateRow, h]⟩,
   fun h => ⟨by simp [updateObj, h], by simp [csvUpdateRow, h]⟩,
   fun h => ⟨by simp [updateObj, h], by simp [csvUpdateRow, h]⟩,
   fun h => ⟨by simp [updateObj, parseToISO, h], by simp [csvUpdateRow, h]⟩,
   fun h => ⟨by simp [updateObj, parseToISO, h], by simp [csvUpdateRow, h]⟩,
   fun h => ⟨by simp [updateObj, parseToISO, h], by simp [csvUpdateRow, h]⟩,
   fun h => ⟨by simp [updateObj, parseToISO, h], by simp [csvUpdateRow, h]⟩,
   fun h => ⟨by simp [updateObj, h], by simp [csvUpdateRow, h]⟩,
   fun h => ⟨by simp [updateObj, h], by simp [csvUpdateRow, h]⟩,
   fun h => ⟨by simp [updateObj, h], by simp [csvUpdateRow, h]⟩,
   fun h => by subst h; simp [csvUpdateRow, show joinSemis [] = "" from rfl],
   fun h hclean => by subst h; exact updateObj_attachments_noFiles jsDateISO nowISO doc body hclean⟩

/-- A date-parse environment on which every input is an invalid date. -/
def noDate : String → Option String := fun _ => none

def emptyBody : TicketBody :=
  { ticket_id := none, category := none, sub_category := none, opened := none,
    reported_by := none, priority := none, building := none, location := none,
    impacted := none, description := none, detectedBy := none,
    time_detected := none, root_cause := none, actions_taken := none,
    status := none, assigned_to := none, resolution_summary := none,
    resolution_time := none, duration := none, post_review := none,
    attachments_field := none, escalation_history := none, closed := none,
    sla_breach := none }

def sampleDoc : TicketDoc :=
  { ticket_id := "KASI-LOS1-20250101-NET-0001", category := "Network",
    sub_category := "", opened := "2025-01-01T00:00:00.000Z",
    reported_by := "alice", priority := "High", building := "LOS1",
    location := "", impacted := "", description := "switch down",
    detectedBy := "", time_detected := none, root_cause := "",
    actions_taken := "", status := "Open", assigned_to := ["bob"],
    resolution_summary := "", resolution_time := none, duration := "",
    post_review := false, attachments := [], escalation_history := "",
    closed := none, sla_breach := false, closedAt := none }

def sampleRow : CsvTicketRow :=
  { ticket_id := "KASI-LOS1-20250101-NET-0001", category := "Network",
    sub_category := "", opened := "2025-01-01T00:00:00.000Z",
    reported_by := "alice", priority := "High", building := "LOS1",
    location := "", impacted := "", description := "switch down",
    detectedBy := "", time_detected := "", root_cause := "",
    actions_taken := "", status := "Open", assigned_to := "bob",
    resolution_summary := "", resolution_time := "", duration := "",
    post_review := "No", attachments := "", escalation_history := "",
    closed := "", sla_breach := "No" }

/-- A request body supplying only `status`. -/
def statusOnlyBody : TicketBody := { emptyBody with status := some ("Closed") }

/-- Witness for C3: the status-only update preserves `description` in both
stores. -/
theorem C3_witness :
    (updateObj noDate ("2025-02-02T10:00:00.000Z") sampleDoc statusOnlyBody []).description
        = sampleDoc.description
    ∧ (csvUpdateRow sampleRow statusOnlyBody []).description = sampleRow.description :=
  (C3_partial_update_frame noDate ("2025-02-02T10:00:00.000Z") sampleDoc sampleRow
      statusOnlyBody []).2.2.2.2.2.2.2.2.2.1 rfl

/-- Witness for C4: closing sets `closedAt`, reopening clears it, and a
status-preserving update leaves it unchanged. -/
theorem C4_witness :
    (updateObj noDate ("2025-02-02T10:00:00.000Z") sampleDoc statusOnlyBody []).closedAt
        = some ("2025-02-02T10:00:00.000Z")
    ∧ (updateObj noDate ("2025-03-03T10:00:00.000Z")
        { sampleDoc with status := "Closed", closedAt := some ("2025-02-02T10:00:00.000Z") }
        { emptyBody with status := some ("Open") } []).closedAt = none
    ∧ (updateObj noDate ("2025-04-04T10:00:00.000Z") sampleDoc emptyBody []).closedAt
        = sampleDoc.closedAt :=
  ⟨(C4_closedAt_transitions noDate ("2025-02-02T10:00:00.000Z") sampleDoc
      statusOnlyBody []).1 (by decide) (by decide),
   (C4_closedAt_transitions noDate ("2025-03-03T10:00:00.000Z")
      { sampleDoc with status := "Closed", closedAt := some ("2025-02-02T10:00:00.000Z") }
      { emptyBody with status := some ("Open") } []).2.1 (by decide) (by decide),
   (C4_closedAt_transitions noDate ("2025-04-04T10:00:00.000Z") sampleDoc
      emptyBody []).2.2 (by decide)⟩

/-- C10: when the id matches a Record Store document but no CSV row, the PUT
handler first applies the merged update to the Record Store and only then
responds 404 `Ticket not found`; the CSV rows and both history logs are left
untouched, and the Record Store change is not rolled back. -/
theorem C10_put_404_after_db_update (jsDateISO : String → Option String)
    (nowISO : String) (stringifyBody : TicketBody → String) (st : StoreState)
    (id : String) (body : TicketBody) (files : List String)
    (rows : List CsvTicketRow) (hrows : st.csvRows = some rows)
    (hmiss : ∀ r ∈ rows, r.ticket_id ≠ id)
    (hdb : ∃ d ∈ st.db, d.ticket_id = id) :
    (putTicket jsDateISO nowISO stringifyBody st id body files).2 = PutResponse.notFound
    ∧ (putTicket jsDateISO nowISO stringifyBody st id body files).1.db =
        updateFirstDoc jsDateISO nowISO id body files st.db
    ∧ (putTicket jsDateISO nowISO stringifyBody st id body files).1.csvRows = st.csvRows
    ∧ (putTicket jsDateISO nowISO stringifyBody st id body files).1.historyCsv = st.historyCsv
    ∧ (putTicket jsDateISO nowISO stringifyBody st id body files).1.historyDb = st.historyDb := by
  have hany : rows.any (fun r => r.ticket_id == id) = false := by
    rw [List.any_eq_false]
    intro r hr
    simpa using hmiss r hr
  simp [putTicket, hrows, hany]

def sampleStateC10 : StoreState :=
  { db := [sampleDoc],
    csvRows := some [{ sampleRow with ticket_id := "KASI-LOS5-20250101-GEN-0001" }],
    historyCsv := [], historyDb := [] }

/-- Witness for C10 at a concrete state whose Record Store holds the ticket
but whose CSV mirror does not. -/
theorem C10_witness :
    (putTicket noDate ("2025-02-02T10:00:00.000Z") (fun _ => "{}") sampleStateC10
        ("KASI-LOS1-20250101-NET-0001") statusOnlyBody []).2 = PutResponse.notFound
    ∧ (putTicket noDate ("2025-02-02T10:00:00.000Z") (fun _ => "{}") sampleStateC10
        ("KASI-LOS1-20250101-NET-0001") statusOnlyBody []).1.db =
        updateFirstDoc noDate ("2025-02-02T10:00:00.000Z")
          ("KASI-LOS1-20250101-NET-0001") statusOnlyBody [] sampleStateC10.db
    ∧ (putTicket noDate ("2025-02-02T10:00:00.000Z") (fun _ => "{}") sampleStateC10
        ("KASI-LOS1-20250101-NET-0001") statusOnlyBody []).1.csvRows = sampleStateC10.csvRows
    ∧ (putTicket noDate ("2025-02-02T10:00:00.000Z") (fun _ => "{}") sampleStateC10
        ("KASI-LOS1-20250101-NET-0001") statusOnlyBody []).1.historyCsv =
        sampleStateC10.historyCsv
    ∧ (putTicket noDate ("2025-02-02T10:00:00.000Z") (fun _ => "{}") sampleStateC10
        ("KASI-LOS1-20250101-NET-0001") statusOnlyBody []).1.historyDb =
        sampleStateC10.historyDb :=
  C10_put_404_after_db_update noDate ("2025-02-02T10:00:00.000Z") (fun _ => "{}")
    sampleStateC10 ("KASI-LOS1-20250101-NET-0001") statusOnlyBody []
    [{ sampleRow with ticket_id := "KASI-LOS5-20250101-GEN-0001" }]
    rfl (by decide) (by decide)

def sampleStateC5 : StoreState :=
  { db := [sampleDoc], csvRows := some [sampleRow], historyCsv := [], historyDb := [] }

def dupBody : TicketBody :=
  { emptyBody with ticket_id := some ("KASI-LOS1-20250101-NET-0001") }

/-- C5 counterexample: starting from a state where `ticket_id` is unique in
both stores, a create whose `ticket_id` already exists does not fail — the
response reports success — and it appends a second CSV row with the same id;
only the Record Store (whose unique-index insert error is caught and
swallowed) stays duplicate-free. -/
theorem C5_counterexample :
    (postCreate noDate ("2025-02-02T10:00:00.000Z") ("20250202") (fun _ _ => "{}")
        sampleStateC5 dupBody []).success = true
    ∧ (((postCreate noDate ("2025-02-02T10:00:00.000Z") ("20250202") (fun _ _ => "{}")
        sampleStateC5 dupBody []).state.csvRows.getD []).countP
          (fun r => r.ticket_id == "KASI-LOS1-20250101-NET-0001")) = 2
    ∧ (postCreate noDate ("2025-02-02T10:00:00.000Z") ("20250202") (fun _ _ => "{}")
        sampleStateC5 dupBody []).state.db = sampleStateC5.db := by
  refine ⟨rfl, ?_, by decide⟩
  decide

/-- C5 amended: uniqueness of `ticket_id` is an invariant of the Record
Store only — a create whose id already exists leaves the store unchanged
(the unique-index insert is rejected and the error swallowed) while the
request still reports success — and the CSV row is appended unconditionally
before the store insert, so the CSV mirror can gain a duplicate row. -/
theorem C5_amended_store_uniqueness (jsDateISO : String → Option String)
    (nowISO : String) (stringifyCreate : TicketBody → String → String)
    (st : StoreState) (body : TicketBody) (files : List String) (tid : String)
    (huniq : (st.db.map (·.ticket_id)).Nodup) :
    ((postCreateWithId jsDateISO nowISO stringifyCreate st body files tid).state.db.map
        (·.ticket_id)).Nodup
    ∧ (postCreateWithId jsDateISO nowISO stringifyCreate st body files tid).success = true
    ∧ (st.db.any (fun d => d.ticket_id == tid) = true →
        (postCreateWithId jsDateISO nowISO stringifyCreate st body files tid).state.db = st.db)
    ∧ (postCreateWithId jsDateISO nowISO stringifyCreate st body files tid).state.csvRows =
        some (st.csvRows.getD [] ++ [createCsvRow jsDateISO nowISO body tid files]) := by
  by_cases hdup : st.db.any (fun d => d.ticket_id == tid) = true
  · refine ⟨?_, rfl, fun _ => ?_, rfl⟩
    · simpa [postCreateWithId, hdup] using huniq
    · simp [postCreateWithId, hdup]
  · have hnotin : tid ∉ st.db.map (·.ticket_id) := by
      intro hmem
      rcases List.mem_map.mp hmem with ⟨d, hd, hEq⟩
      have : st.db.any (fun x => x.ticket_id == tid) = true :=
        List.any_eq_true.mpr ⟨d, hd, by simp [hEq]⟩
      exact hdup this
    refine ⟨?_, rfl, fun hc => absurd hc hdup, rfl⟩
    have hid : (createDoc jsDateISO nowISO body tid files).ticket_id = tid := rfl
    simp only [postCreateWithId, Bool.not_eq_true] at *
    simp only [hdup, if_false, List.map_append, List.map_cons, List.map_nil, hid]
    simp only [Bool.false_eq_true, if_false]
    simp only [List.map_append, List.map_cons, List.map_nil, hid]
    rw [List.nodup_append]
    refine ⟨huniq, by simp, ?_⟩
    simp only [List.disjoint_singleton]
    exact hnotin

/-- Witness for C5 amended: the duplicate-id create at the concrete state. -/
theorem C5_amended_witness :
    ((postCreateWithId noDate ("2025-02-02T10:00:00.000Z") (fun _ _ => "{}")
        sampleStateC5 dupBody [] ("KASI-LOS1-20250101-NET-0001")).state.db.map
        (·.ticket_id)).Nodup
    ∧ (postCreateWithId noDate ("2025-02-02T10:00:00.000Z") (fun _ _ => "{}")
        sampleStateC5 dupBody [] ("KASI-LOS1-20250101-NET-0001")).success = true
    ∧ (sampleStateC5.db.any
          (fun d => d.ticket_id == "KASI-LOS1-20250101-NET-0001") = true →
        (postCreateWithId noDate ("2025-02-02T10:00:00.000Z") (fun _ _ => "{}")
          sampleStateC5 dupBody [] ("KASI-LOS1-20250101-NET-0001")).state.db =
          sampleStateC5.db)
    ∧ (postCreateWithId noDate ("2025-02-02T10:00:00.000Z") (fun _ _ => "{}")
        sampleStateC5 dupBody [] ("KASI-LOS1-20250101-NET-0001")).state.csvRows =
        some (sampleStateC5.csvRows.getD [] ++
          [createCsvRow noDate ("2025-02-02T10:00:00.000Z") dupBody
            ("KASI-LOS1-20250101-NET-0001") []]) :=
  C5_amended_store_uniqueness noDate ("2025-02-02T10:00:00.000Z") (fun _ _ => "{}")
    sampleStateC5 dupBody [] ("KASI-LOS1-20250101-NET-0001") (by decide)

/-! ## Statistics aggregator (`GET /tickets/stats`)

`StatTicket` is a stored ticket as the aggregations see it: `createdAt`
(the schema timestamp), the optional `closedAt` instant, the status, and the
schema's `sla_breach` flag.  `$year/$month/$dayOfMonth` extraction is
modelled by keeping dates at day granularity; the `match` filter is an
arbitrary predicate parameter. -/

structure SDate where
  y : Nat
  m : Nat
  d : Nat
deriving DecidableEq

structure StatTicket where
  createdAt : SDate
  closedAt : Option SDate
  status : String
  sla_breach : Bool
deriving DecidableEq

/-- The `$sort {'_id.year': 1, '_id.month': 1, '_id.day': 1}` order. -/
def sdateLe (a b : SDate) : Bool :=
  a.y < b.y || (a.y = b.y && (a.m < b.m || (a.m = b.m && a.d ≤ b.d)))

def sortByDay (l : List SDate) : List SDate :=
  List.insertionSort (fun a b => sdateLe a b = true) l

/-- JS `Set` iteration order: first occurrences kept. -/
def dedupFirst [DecidableEq α] (seen : List α) : List α → List α
  | [] => []
  | x :: xs => if x ∈ seen then dedupFirst seen xs else x :: dedupFirst (x :: seen) xs

/-- Opened-per-day aggregation: group the filtered tickets by creation day,
count each group, `$sort` ascending by (year, month, day). -/
def openedSeries (tickets : List StatTicket) (flt : StatTicket → Bool) :
    List (SDate × Nat) :=
  let days := (tickets.filter flt).map (·.createdAt)
  (sortByDay (dedupFirst [] days)).map (fun day => (day, days.count day))

/-- `$ifNull: ['$closedAt', '$createdAt']`. -/
def closedDayOf (t : StatTicket) : SDate := t.closedAt.getD t.createdAt

/-- Closed-per-day aggregation: filtered tickets with `status: 'Closed'`,
grouped by the closed day (creation day when `closedAt` is absent). -/
def closedSeries (tickets : List StatTicket) (flt : StatTicket → Bool) :
    List (SDate × Nat) :=
  let days := (tickets.filter (fun t => flt t && t.status == "Closed")).map closedDayOf
  (sortByDay (dedupFirst [] days)).map (fun day => (day, days.count day))

/-- The `${year}-${month}-${day}` key used for the merge `Set` (numbers
rendered without padding). -/
def dayKey (day : SDate) : String :=
  natStr day.y ++ "-" ++ natStr day.m ++ "-" ++ natStr day.d

def allDatesKeys (tickets : List StatTicket) (flt : StatTicket → Bool) :
    List String :=
  dedupFirst [] ((openedSeries tickets flt).map (fun i => dayKey i.1) ++
    (closedSeries tickets flt).map (fun i => dayKey i.1))

structure OverTimeEntry where
  date : String
  opened : Nat
  closed : Nat
deriving DecidableEq

/-- One merged `{date, opened, closed}` entry: split the key on `-`, look the
day up in both series with JS loose equality (a string against a number
compares numerically), and zero-pad month and day in the output date. -/
def mergedEntry (openedAgg closedAgg : List (SDate × Nat)) (key : String) :
    OverTimeEntry :=
  let parts := jsSplit '-' key.data
  let yS := parts.getD 0 []
  let mS := parts.getD 1 []
  let dS := parts.getD 2 []
  let isDay := fun (i : SDate × Nat) =>
    (i.1.y == parseNatChars yS) && (i.1.m == parseNatChars mS) &&
      (i.1.d == parseNatChars dS)
  { date := ⟨yS⟩ ++ "-" ++ ⟨padStartZeros 2 mS⟩ ++ "-" ++ ⟨padStartZeros 2 dS⟩,
    opened := ((openedAgg.find? isDay).map (·.2)).getD 0,
    closed := ((closedAgg.find? isDay).map (·.2)).getD 0 }

def mergedOverTime (tickets : List StatTicket) (flt : StatTicket → Bool) :
    List OverTimeEntry :=
  (allDatesKeys tickets flt).map
    (mergedEntry (openedSeries tickets flt) (closedSeries tickets flt))

/-- The value `new Date(e.date)` compares by: on a valid zero-padded
`YYYY-MM-DD` string the chronological order of the parsed timestamps is the
lexicographic order of the `(y, m, d)` triple, encoded here numerically. -/
def dateStrVal (s : String) : Nat :=
  let parts := jsSplit '-' s.data
  parseNatChars (parts.getD 0 []) * 10000 + parseNatChars (parts.getD 1 []) * 100 +
    parseNatChars (parts.getD 2 [])

/-- `mergedOverTime.sort((a, b) => new Date(a.date) - new Date(b.date))`. -/
def ticketsOverTime (tickets : List StatTicket) (flt : StatTicket → Bool) :
    List OverTimeEntry :=
  List.insertionSort (fun a b => dateStrVal a.date ≤ dateStrVal b.date)
    (mergedOverTime tickets flt)

/-- The zero-padded date string of one output entry. -/
def paddedDayStr (day : SDate) : String :=
  natStr day.y ++ "-" ++ (⟨padStartZeros 2 (natChars day.m)⟩ : String) ++ "-" ++
    (⟨padStartZeros 2 (natChars day.d)⟩ : String)

/-- Recover the `(y, m, d)` triple from a dash-separated date string. -/
def recoverDay (key : String) : SDate :=
  let parts := jsSplit '-' key.data
  { y := parseNatChars (parts.getD 0 []),
    m := parseNatChars (parts.getD 1 []),
    d := parseNatChars (parts.getD 2 []) }

def validDay (day : SDate) : Prop :=
  1000 ≤ day.y ∧ day.y ≤ 9999 ∧ 1 ≤ day.m ∧ day.m ≤ 12 ∧ 1 ≤ day.d ∧ day.d ≤ 31

instance (day : SDate) : Decidable (validDay day) := by
  unfold validDay
  infer_instance

theorem dash_notMem_natChars (n : Nat) : '-' ∉ natChars n :=
  notMem_natChars_of_not_digit n '-' (by decide)

theorem dash_notMem_pad2 (n : Nat) : '-' ∉ padStartZeros 2 (natChars n) := by
  intro h
  rcases List.mem_append.mp h with h | h
  · have := List.eq_of_mem_replicate h
    simp at this
  · exact dash_notMem_natChars n h

theorem data_dayKey (day : SDate) :
    (dayKey day).data =
      natChars day.y ++ '-' :: (natChars day.m ++ '-' :: natChars day.d) := by
  simp [dayKey, natStr, String.data_append]

theorem jsSplit_dayKey (day : SDate) :
    jsSplit '-' (dayKey day).data =
      [natChars day.y, natChars day.m, natChars day.d] := by
  rw [data_dayKey]
  rw [jsSplit_append_sep '-' _ _ (dash_notMem_natChars day.y)]
  rw [jsSplit_append_sep '-' _ _ (dash_notMem_natChars day.m)]
  rw [jsSplit_no_sep '-' _ (dash_notMem_natChars day.d)]

theorem recoverDay_dayKey (day : SDate) : recoverDay (dayKey day) = day := by
  cases day with
  | mk y m d =>
      simp [recoverDay, jsSplit_dayKey, parse_natChars, parseNatChars]
      exact ⟨parse_natChars y, parse_natChars m, parse_natChars d⟩

theorem dayKey_inj : Function.Injective dayKey := by
  intro a b h
  have := congrArg recoverDay h
  rwa [recoverDay_dayKey, recoverDay_dayKey] at this

theorem data_paddedDayStr (day : SDate) :
    (paddedDayStr day).data =
      natChars day.y ++ '-' ::
        (padStartZeros 2 (natChars day.m) ++ '-' :: padStartZeros 2 (natChars day.d)) := by
  simp [paddedDayStr, natStr, String.data_append]

theorem jsSplit_paddedDayStr (day : SDate) :
    jsSplit '-' (paddedDayStr day).data =
      [natChars day.y, padStartZeros 2 (natChars day.m),
        padStartZeros 2 (natChars day.d)] := by
  rw [data_paddedDayStr]
  rw [jsSplit_append_sep '-' _ _ (dash_notMem_natChars day.y)]
  rw [jsSplit_append_sep '-' _ _ (dash_notMem_pad2 day.m)]
  rw [jsSplit_no_sep '-' _ (dash_notMem_pad2 day.d)]

theorem recoverDay_paddedDayStr (day : SDate) :
    recoverDay (paddedDayStr day) = day := by
  cases day with
  | mk y m d =>
      simp [recoverDay, jsSplit_paddedDayStr]
      refine ⟨parse_natChars y, ?_, ?_⟩
      · rw [parse_padStartZeros]; exact parse_natChars m
      · rw [parse_padStartZeros]; exact parse_natChars d

theorem paddedDayStr_inj : Function.Injective paddedDayStr := by
  intro a b h
  have := congrArg recoverDay h
  rwa [recoverDay_paddedDayStr, recoverDay_paddedDayStr] at this

theorem dateStrVal_paddedDayStr (day : SDate) :
    dateStrVal (paddedDayStr day) = day.y * 10000 + day.m * 100 + day.d := by
  simp only [dateStrVal, jsSplit_paddedDayStr, List.getD_cons_zero, List.getD_cons_succ]
  rw [parse_padStartZeros, parse_padStartZeros, parse_natChars, parse_natChars,
    parse_natChars]

theorem mergedEntry_date (o c : List (SDate × Nat)) (day : SDate) :
    (mergedEntry o c (dayKey day)).date = paddedDayStr day := by
  simp [mergedEntry, jsSplit_dayKey, paddedDayStr, natStr]

theorem mem_dedupFirst [DecidableEq α] :
    ∀ (l seen : List α) (x : α), x ∈ dedupFirst seen l ↔ x ∈ l ∧ x ∉ seen := by
  intro l
  induction l with
  | nil => intro seen x; simp [dedupFirst]
  | cons a t ih =>
      intro seen x
      by_cases ha : a ∈ seen
      · simp only [dedupFirst, if_pos ha]
        rw [ih seen x]
        constructor
        · exact fun h => ⟨List.mem_cons_of_mem a h.1, h.2⟩
        · rintro ⟨h1, h2⟩
          rcases List.mem_cons.mp h1 with rfl | h1
          · exact absurd ha h2
          · exact ⟨h1, h2⟩
      · simp only [dedupFirst, if_neg ha]
        constructor
        · intro hmem
          rcases List.mem_cons.mp hmem with rfl | hmem
          · exact ⟨List.mem_cons_self _ _, ha⟩
          · have h := (ih (a :: seen) x).mp hmem
            exact ⟨List.mem_cons_of_mem a h.1,
              fun hx => h.2 (List.mem_cons_of_mem a hx)⟩
        · rintro ⟨h1, h2⟩
          rcases List.mem_cons.mp h1 with rfl | h1
          · exact List.mem_cons_self _ _
          · by_cases hxa : x = a
            · subst hxa; exact List.mem_cons_self _ _
            · refine List.mem_cons_of_mem a ((ih (a :: seen) x).mpr ⟨h1, ?_⟩)
              intro hmem
              rcases List.mem_cons.mp hmem with h | h
              · exact hxa h
              · exact h2 h

theorem nodup_dedupFirst [DecidableEq α] :
    ∀ (l seen : List α), (dedupFirst seen l).Nodup := by
  intro l
  induction l with
  | nil => intro seen; simp [dedupFirst]
  | cons a t ih =>
      intro seen
      by_cases ha : a ∈ seen
      · simp only [dedupFirst, if_pos ha]; exact ih seen
      · simp only [dedupFirst, if_neg ha]
        rw [List.nodup_cons]
        refine ⟨?_, ih (a :: seen)⟩
        intro hmem
        exact ((mem_dedupFirst t (a :: seen) a).mp hmem).2 (List.mem_cons_self a seen)

theorem dedupFirst_map_inj [DecidableEq α] [DecidableEq β] (f : α → β)
    (hinj : Function.Injective f) :
    ∀ (l seen : List α),
      dedupFirst (seen.map f) (l.map f) = (dedupFirst seen l).map f := by
  intro l
  induction l with
  | nil => intro seen; simp [dedupFirst]
  | cons a t ih =>
      intro seen
      by_cases ha : a ∈ seen
      · have hf : f a ∈ seen.map f := List.mem_map_of_mem f ha
        simp only [List.map_cons, dedupFirst, if_pos ha, if_pos hf]
        exact ih seen
      · have hf : f a ∉ seen.map f := by
          intro hmem
          rcases List.mem_map.mp hmem with ⟨b, hb, hEq⟩
          exact ha (hinj hEq ▸ hb)
        simp only [List.map_cons, dedupFirst, if_neg ha, if_neg hf]
        rw [show f a :: seen.map f = (a :: seen).map f from rfl]
        rw [ih (a :: seen)]

theorem mem_sortByDay (l : List SDate) (a : SDate) : a ∈ sortByDay l ↔ a ∈ l :=
  (List.perm_insertionSort _ l).mem_iff

theorem openedSeries_keys (tickets : List StatTicket) (flt : StatTicket → Bool) :
    (openedSeries tickets flt).map (fun i => dayKey i.1) =
      (sortByDay (dedupFirst [] ((tickets.filter flt).map (·.createdAt)))).map
        dayKey := by
  simp [openedSeries, List.map_map, Function.comp]

theorem closedSeries_keys (tickets : List StatTicket) (flt : StatTicket → Bool) :
    (closedSeries tickets flt).map (fun i => dayKey i.1) =
      (sortByDay (dedupFirst []
        ((tickets.filter (fun t => flt t && t.status == "Closed")).map
          closedDayOf))).map dayKey := by
  simp [closedSeries, List.map_map, Function.comp]

theorem mergedOverTime_dates (tickets : List StatTicket) (flt : StatTicket → Bool) :
    (mergedOverTime tickets flt).map (·.date) =
      (dedupFirst []
        (sortByDay (dedupFirst [] ((tickets.filter flt).map (·.createdAt))) ++
         sortByDay (dedupFirst []
           ((tickets.filter (fun t => flt t && t.status == "Closed")).map
             closedDayOf)))).map paddedDayStr := by
  unfold mergedOverTime allDatesKeys
  rw [openedSeries_keys, closedSeries_keys]
  rw [← List.map_append]
  rw [show ([] : List String) = ([] : List SDate).map dayKey from rfl]
  rw [dedupFirst_map_inj dayKey dayKey_inj]
  rw [List.map_map, List.map_map]
  apply List.map_congr_left
  intro day _
  exact mergedEntry_date _ _ day

/-- C7: `ticketsOverTime` contains exactly one entry per calendar day in the
union of opened days and closed days (closed tickets bucketed by `closedAt`,
falling back to `createdAt` when absent), its date strings contain no
duplicates, every date string is the zero-padded `YYYY-MM-DD` rendering of
such a day, and the sequence is strictly ascending in the date order the
comparator `new Date(a.date) - new Date(b.date)` induces, which on
zero-padded valid dates coincides with the lexicographic order of the date
strings. -/
theorem C7_ticketsOverTime_days (tickets : List StatTicket)
    (flt : StatTicket → Bool)
    (hvalid : ∀ t ∈ tickets,
      validDay t.createdAt ∧ ∀ c, t.closedAt = some c → validDay c) :
    ((ticketsOverTime tickets flt).map (·.date)).Nodup
    ∧ (ticketsOverTime tickets flt).Pairwise
        (fun a b => dateStrVal a.date < dateStrVal b.date)
    ∧ (∀ day : SDate,
        paddedDayStr day ∈ (ticketsOverTime tickets flt).map (·.date) ↔
          day ∈ (tickets.filter flt).map (·.createdAt)
          ∨ day ∈ (tickets.filter (fun t => flt t && t.status == "Closed")).map
              closedDayOf)
    ∧ (∀ s ∈ (ticketsOverTime tickets flt).map (·.date),
        ∃ day : SDate, s = paddedDayStr day) := by
  classical
  set openedDays := (tickets.filter flt).map (·.createdAt) with hOD
  set closedDays :=
    (tickets.filter (fun t => flt t && t.status == "Closed")).map closedDayOf
      with hCD
  set daysL := dedupFirst []
    (sortByDay (dedupFirst [] openedDays) ++ sortByDay (dedupFirst [] closedDays))
      with hDL
  have hdates : (mergedOverTime tickets flt).map (·.date) = daysL.map paddedDayStr :=
    mergedOverTime_dates tickets flt
  have hmemdays : ∀ day, day ∈ daysL ↔ day ∈ openedDays ∨ day ∈ closedDays := by
    intro day
    rw [hDL, mem_dedupFirst]
    simp [List.mem_append, mem_sortByDay, mem_dedupFirst]
  have hnodupdays : daysL.Nodup := nodup_dedupFirst _ []
  have hvaliddays : ∀ day ∈ daysL, validDay day := by
    intro day hday
    rcases (hmemdays day).mp hday with h | h
    · rcases List.mem_map.mp h with ⟨t, ht, rfl⟩
      exact (hvalid t (List.mem_of_mem_filter ht)).1
    · rcases List.mem_map.mp h with ⟨t, ht, rfl⟩
      have hv := hvalid t (List.mem_of_mem_filter ht)
      unfold closedDayOf
      cases hc : t.closedAt with
      | none => simpa using hv.1
      | some c => simpa using hv.2 c hc
  have hperm : List.Perm (ticketsOverTime tickets flt) (mergedOverTime tickets flt) :=
    List.perm_insertionSort _ _
  have hdatesperm :
      List.Perm ((ticketsOverTime tickets flt).map (·.date)) (daysL.map paddedDayStr) := by
    rw [← hdates]
    exact hperm.map _
  have hnodupdates : ((ticketsOverTime tickets flt).map (·.date)).Nodup := by
    rw [hdatesperm.nodup_iff]
    exact hnodupdays.map paddedDayStr_inj
  refine ⟨hnodupdates, ?_, ?_, ?_⟩
  · haveI instTot :
        IsTotal OverTimeEntry (fun a b => dateStrVal a.date ≤ dateStrVal b.date) :=
      ⟨fun a b => Nat.le_total _ _⟩
    haveI instTr :
        IsTrans OverTimeEntry (fun a b => dateStrVal a.date ≤ dateStrVal b.date) :=
      ⟨fun a b c h1 h2 => le_trans h1 h2⟩
    have hsorted : (ticketsOverTime tickets flt).Pairwise
        (fun a b => dateStrVal a.date ≤ dateStrVal b.date) :=
      List.sorted_insertionSort _ (mergedOverTime tickets flt)
    have hdaysval :
        (daysL.map (fun day => day.y * 10000 + day.m * 100 + day.d)).Nodup := by
      refine List.Nodup.map_on ?_ hnodupdays
      intro x hx y hy hEq
      have hvx := hvaliddays x hx
      have hvy := hvaliddays y hy
      unfold validDay at hvx hvy
      cases x with
      | mk xy xm xd =>
          cases y with
          | mk yy ym yd =>
              simp only at hEq hvx hvy
              simp only [SDate.mk.injEq]
              omega
    have hvalperm :
        List.Perm ((ticketsOverTime tickets flt).map (fun e => dateStrVal e.date))
          (daysL.map (fun day => day.y * 10000 + day.m * 100 + day.d)) := by
      have h1 := hdatesperm.map dateStrVal
      rw [List.map_map, List.map_map] at h1
      have h2 : daysL.map (dateStrVal ∘ paddedDayStr) =
          daysL.map (fun day => day.y * 10000 + day.m * 100 + day.d) :=
        List.map_congr_left (fun day _ => dateStrVal_paddedDayStr day)
      rw [h2] at h1
      exact h1
    have hvalnodup :
        ((ticketsOverTime tickets flt).map (fun e => dateStrVal e.date)).Nodup :=
      hvalperm.nodup_iff.mpr hdaysval
    have hnepair : (ticketsOverTime tickets flt).Pairwise
        (fun a b => dateStrVal a.date ≠ dateStrVal b.date) :=
      List.pairwise_map.mp hvalnodup
    exact (hsorted.and hnepair).imp (fun h => lt_of_le_of_ne h.1 h.2)
  · intro day
    rw [hdatesperm.mem_iff]
    constructor
    · intro hmem
      rcases List.mem_map.mp hmem with ⟨day2, hday2, hEq⟩
      have hEq2 : day2 = day := paddedDayStr_inj hEq
      subst hEq2
      exact (hmemdays day2).mp hday2
    · intro h
      exact List.mem_map_of_mem paddedDayStr ((hmemdays day).mpr h)
  · intro s hs
    rw [hdatesperm.mem_iff] at hs
    rcases List.mem_map.mp hs with ⟨day, _, rfl⟩
    exact ⟨day, rfl⟩

def sampleStat1 : StatTicket :=
  { createdAt := ⟨2025, 3, 7⟩, closedAt := none, status := "Open",
    sla_breach := false }

def sampleStat2 : StatTicket :=
  { createdAt := ⟨2025, 3, 5⟩, closedAt := some ⟨2025, 3, 9⟩, status := "Closed",
    sla_breach := true }

/-- Witness for C7 at a concrete pair of tickets (one open, one closed on a
different day). -/
theorem C7_witness :
    ((ticketsOverTime [sampleStat1, sampleStat2] (fun _ => true)).map (·.date)).Nodup
    ∧ (ticketsOverTime [sampleStat1, sampleStat2] (fun _ => true)).Pairwise
        (fun a b => dateStrVal a.date < dateStrVal b.date)
    ∧ (∀ s ∈ (ticketsOverTime [sampleStat1, sampleStat2] (fun _ => true)).map (·.date),
        ∃ day : SDate, s = paddedDayStr day) := by
  have h := C7_ticketsOverTime_days [sampleStat1, sampleStat2] (fun _ => true)
    (by
      intro t ht
      rcases List.mem_cons.mp ht with rfl | ht2
      · exact ⟨by decide, fun c hc => by cases hc⟩
      · rcases List.mem_cons.mp ht2 with rfl | ht3
        · refine ⟨by decide, ?_⟩
          intro c hc
          injection hc with hEq
          subst hEq
          decide
        · cases ht3)
  exact ⟨h.1, h.2.1, h.2.2.2⟩

/-! ## SLA statistics (`slaStats` in `GET /tickets/stats`)

The two `countDocuments` calls filter on a field named `slaBreached`.  The
schema (`models/Ticket.js`) declares `sla_breach`; no document created by
this application carries a field `slaBreached`, so the lookup of that name
yields the missing value, which only the `{slaBreached: null}` clause of
the on-time `$or` matches. -/

inductive BsonVal
  | b (x : Bool)
  | s (x : String)
  | i (x : Int)
  | null
  | missing
deriving DecidableEq

/-- Field lookup on a stored ticket document per `ticketSchema`. -/
def fieldVal (t : StatTicket) (name : String) : BsonVal :=
  if name = "sla_breach" then BsonVal.b t.sla_breach
  else if name = "status" then BsonVal.s t.status
  else BsonVal.missing

/-- MongoDB equality match: a `null` query value matches null or a missing
field; any other literal matches only the identical value. -/
def mongoEq (v q : BsonVal) : Bool :=
  match q with
  | BsonVal.null => v == BsonVal.null || v == BsonVal.missing
  | q => v == q

/-- `$or: [{slaBreached: true}, {slaBreached: 'Yes'}, {slaBreached: 'yes'},
{slaBreached: 'checked'}, {slaBreached: 1}]`. -/
def slaBreachedQuery : List BsonVal :=
  [BsonVal.b true, BsonVal.s "Yes", BsonVal.s "yes", BsonVal.s "checked",
    BsonVal.i 1]

/-- `$or: [{slaBreached: false}, {slaBreached: 'No'}, {slaBreached: 'no'},
{slaBreached: 'unchecked'}, {slaBreached: 0}, {slaBreached: null}]`. -/
def slaOnTimeQuery : List BsonVal :=
  [BsonVal.b false, BsonVal.s "No", BsonVal.s "no", BsonVal.s "unchecked",
    BsonVal.i 0, BsonVal.null]

def slaBreachesCount (tickets : List StatTicket) (flt : StatTicket → Bool) : Nat :=
  (tickets.filter (fun t => flt t &&
    slaBreachedQuery.any (fun q => mongoEq (fieldVal t "slaBreached") q))).length

def slaOnTimeCount (tickets : List StatTicket) (flt : StatTicket → Bool) : Nat :=
  (tickets.filter (fun t => flt t &&
    slaOnTimeQuery.any (fun q => mongoEq (fieldVal t "slaBreached") q))).length

def totalTicketsCount (tickets : List StatTicket) (flt : StatTicket → Bool) : Nat :=
  (tickets.filter flt).length

/-- C6: evaluation at the failing input.  A single stored ticket whose
schema flag `sla_breach` is `true` is counted as on-time and not as
breached, because the stats queries filter on the non-schema field name
`slaBreached`, which is missing from every document and therefore matched
only by the `null` clause of the on-time query; the claim's permissive-flag
characterization fails (while `breached + onTime = totalTickets` still
holds, with `breached` constantly 0). -/
theorem C6_sla_field_mismatch :
    slaBreachesCount [sampleStat2] (fun _ => true) = 0
    ∧ slaOnTimeCount [sampleStat2] (fun _ => true) = 1
    ∧ totalTicketsCount [sampleStat2] (fun _ => true) = 1
    ∧ sampleStat2.sla_breach = true := by decide

/-! ## The `week` filter of `GET /tickets/stats`

The route computes `startDate = new Date(yr, 0, (weekNum - 1) * 7 + 1)` and
`endDate = new Date(yr, 0, weekNum * 7 + 1)` and filters
`createdAt ∈ [startDate, endDate)`.  Timestamps are integers in
milliseconds; `daysFromCivil` is the proleptic-Gregorian day count from the
Unix epoch that ECMAScript `Date` arithmetic uses (`/` on `Int` is floor
division for positive divisors), and `new Date(yr, 0, day)` normalizes a day
overflow by plain day addition. -/

def daysFromCivil (y m d : Int) : Int :=
  let y2 := if m ≤ 2 then y - 1 else y
  let era := y2 / 400
  let yoe := y2 - era * 400
  let mp := (m + 9) % 12
  let doy := (153 * mp + 2) / 5 + d - 1
  let doe := yoe * 365 + yoe / 4 - yoe / 100 + doy
  era * 146097 + doe - 719468

def msPerDay : Int := 86400000

/-- `new Date(yr, 0, day)` at UTC midnight (month index 0 as the route
always passes). -/
def jsDateMs (yr day : Int) : Int := (daysFromCivil yr 1 1 + (day - 1)) * msPerDay

/-- The `week` filter on one creation timestamp. -/
def weekFilterMatch (yr w : Int) (createdAtMs : Int) : Bool :=
  decide (jsDateMs yr ((w - 1) * 7 + 1) ≤ createdAtMs) &&
    decide (createdAtMs < jsDateMs yr (w * 7 + 1))

/-- `totalTickets` under the week filter. -/
def weekFilteredTotal (createdTimes : List Int) (yr w : Int) : Nat :=
  (createdTimes.filter (weekFilterMatch yr w)).length

/-- Modelled from the spec: the ISO 8601 week (`YYYY-Www`, Monday-based
weeks, week 1 the one containing the year's first Thursday) that the claim
asserts the filter uses; the code is compared against this definition. -/
def isLeapYear (y : Int) : Bool := (y % 4 == 0 && y % 100 != 0) || y % 400 == 0

/-- Modelled from the spec: ordinal day of the year. -/
def dayOfYear (y m d : Int) : Int :=
  let k : Int := if isLeapYear y then 1 else 0
  let cum : Int :=
    if m = 1 then 0 else if m = 2 then 31 else if m = 3 then 59 + k
    else if m = 4 then 90 + k else if m = 5 then 120 + k
    else if m = 6 then 151 + k else if m = 7 then 181 + k
    else if m = 8 then 212 + k else if m = 9 then 243 + k
    else if m = 10 then 273 + k else if m = 11 then 304 + k else 334 + k
  cum + d

/-- Modelled from the spec: ISO weekday, Monday = 1 … Sunday = 7
(1970-01-01 was a Thursday). -/
def isoWeekday (y m d : Int) : Int := (daysFromCivil y m d + 3) % 7 + 1

/-- Modelled from the spec: number of ISO weeks in a year (53 when the year
starts or ends on a Thursday). -/
def isoWeeksInYear (y : Int) : Int :=
  if isoWeekday y 1 1 = 4 ∨ isoWeekday y 12 31 = 4 then 53 else 52

/-- Modelled from the spec: the ISO week-year and week number of a date. -/
def isoWeekOf (y m d : Int) : Int × Int :=
  let w := (dayOfYear y m d - isoWeekday y m d + 10) / 7
  if w < 1 then (y - 1, isoWeeksInYear (y - 1))
  else if w > isoWeeksInYear y then (y + 1, 1)
  else (y, w)

/-- C8 counterexample: the filter `2025-W01` counts a ticket created on
2025-01-07, which lies in ISO week 2025-W02, and excludes a ticket created
on Monday 2024-12-30, which opens ISO week 2025-W01 — so the filter does not
select the ISO 8601 week. -/
theorem C8_counterexample :
    weekFilteredTotal [daysFromCivil 2025 1 7 * msPerDay] 2025 1 = 1
    ∧ isoWeekOf 2025 1 7 = (2025, 2)
    ∧ weekFilterMatch 2025 1 (daysFromCivil 2024 12 30 * msPerDay) = false
    ∧ isoWeekOf 2024 12 30 = (2025, 1) := by decide

/-- C8 amended: the `YYYY-Www` filter selects the half-open 7-day block
`[Jan 1 + (w-1)·7 days, Jan 1 + w·7 days)` of the given year — fixed blocks
anchored at January 1, irrespective of weekday; every creation instant from
January 1 onward matches exactly one week number `w ≥ 1`. -/
theorem C8_amended_weekBlocks (yr t : Int) (h : jsDateMs yr 1 ≤ t) :
    ∃! w : Int, 1 ≤ w ∧ weekFilterMatch yr w t = true := by
  have hmatch : ∀ w : Int, weekFilterMatch yr w t = true ↔
      (daysFromCivil yr 1 1 * 86400000 + (w - 1) * 604800000 ≤ t
        ∧ t < daysFromCivil yr 1 1 * 86400000 + w * 604800000) := by
    intro w
    unfold weekFilterMatch jsDateMs msPerDay
    rw [Bool.and_eq_true, decide_eq_true_iff, decide_eq_true_iff]
    constructor
    · intro hw
      constructor <;> [skip; skip] <;> omega
    · intro hw
      constructor <;> omega
  unfold jsDateMs msPerDay at h
  have h0 : daysFromCivil yr 1 1 * 86400000 ≤ t := by omega
  refine ⟨(t - daysFromCivil yr 1 1 * 86400000) / 604800000 + 1, ⟨?_, ?_⟩, ?_⟩
  · have := Int.ediv_nonneg (by omega : 0 ≤ t - daysFromCivil yr 1 1 * 86400000)
      (by norm_num : (0 : Int) ≤ 604800000)
    omega
  · rw [hmatch]
    constructor <;> omega
  · intro w hw
    rw [hmatch] at hw
    rcases hw with ⟨hw1, hw2⟩
    omega

/-- Witness for C8 amended at a concrete year and timestamp. -/
theorem C8_amended_witness :
    ∃! w : Int, 1 ≤ w ∧
      weekFilterMatch 2025 w (daysFromCivil 2025 1 7 * msPerDay) = true :=
  C8_amended_weekBlocks 2025 (daysFromCivil 2025 1 7 * msPerDay) (by decide)
